import Mathlib

/-!
# Dashboard script (`src/static/js/dashboard.js`)

A shallow embedding of the page script of the patient dashboard: the search
filter over the patient table, the two modal dialogs (patient, appointment)
and the delete confirmations, followed by the properties of the
specification that were checked against it.
-/

set_option maxRecDepth 100000

namespace Dashboard

/-! ## Strings -/

/-- A JavaScript string, as its sequence of UTF-16 code units. -/
abbrev Str := List Nat

/-- A leading surrogate code unit. -/
def isHighSurrogate (u : Nat) : Bool := 0xD800 ≤ u && u ≤ 0xDBFF

/-- A trailing surrogate code unit. -/
def isLowSurrogate (u : Nat) : Bool := 0xDC00 ≤ u && u ≤ 0xDFFF

/-- The abstract operation `StringToCodePoints`: a leading surrogate followed
by a trailing one is one code point, every other code unit stands for
itself. -/
def toCodePoints : Str → List Nat
  | [] => []
  | [a] => [a]
  | a :: b :: rest =>
    if isHighSurrogate a && isLowSurrogate b then
      (0x10000 + (a - 0xD800) * 0x400 + (b - 0xDC00)) :: toCodePoints rest
    else a :: toCodePoints (b :: rest)

/-- The abstract operation `UTF16EncodeCodePoint`. -/
def encodeCodePoint (c : Nat) : Str :=
  if c < 0x10000 then [c]
  else [0xD800 + (c - 0x10000) / 0x400, 0xDC00 + (c - 0x10000) % 0x400]

/-- The abstract operation `CodePointsToString`. -/
def fromCodePoints (cs : List Nat) : Str := cs.flatMap encodeCodePoint

/-- The code units of a literal. -/
def js (s : String) : Str := fromCodePoints (s.toList.map Char.toNat)

/-- The `WhiteSpace` and `LineTerminator` code points of ECMAScript, the ones
`String.prototype.trim` strips. -/
def isWhiteSpace (n : Nat) : Bool :=
  n == 0x09 || n == 0x0A || n == 0x0B || n == 0x0C || n == 0x0D || n == 0x20 ||
  n == 0xA0 || n == 0x1680 || (0x2000 ≤ n && n ≤ 0x200A) || n == 0x2028 ||
  n == 0x2029 || n == 0x202F || n == 0x205F || n == 0x3000 || n == 0xFEFF

/-- The built-in `String.prototype.trim`: white space removed at both ends. -/
def trim (s : Str) : Str :=
  (s.dropWhile isWhiteSpace).rdropWhile isWhiteSpace

/-- GREEK CAPITAL LETTER SIGMA. -/
def capitalSigma : Nat := 0x3A3

/-- GREEK SMALL LETTER SIGMA. -/
def smallSigma : Nat := 0x3C3

/-- GREEK SMALL LETTER FINAL SIGMA. -/
def finalSigma : Nat := 0x3C2

/-- The code points whose lowercase mapping is one other code point
(UnicodeData.txt, Unicode 14.0.0), in runs `(first, last, step, image)`: the
code points `first`, `first + step`, ... up to `last` are mapped, `first` to
`image` and the others as far from `image` as they are from `first`. -/
def lowerRuns : List (Nat × Nat × Nat × Nat) := [
  (0x41, 0x5A, 1, 0x61), (0xC0, 0xD6, 1, 0xE0), (0xD8, 0xDE, 1, 0xF8),
  (0x100, 0x12E, 2, 0x101), (0x132, 0x136, 2, 0x133), (0x139, 0x147, 2, 0x13A),
  (0x14A, 0x176, 2, 0x14B), (0x178, 0x178, 2, 0xFF), (0x179, 0x17D, 2, 0x17A),
  (0x181, 0x181, 2, 0x253), (0x182, 0x184, 2, 0x183), (0x186, 0x186, 2, 0x254),
  (0x187, 0x187, 2, 0x188), (0x189, 0x18A, 1, 0x256), (0x18B, 0x18B, 2, 0x18C),
  (0x18E, 0x18E, 2, 0x1DD), (0x18F, 0x18F, 2, 0x259), (0x190, 0x190, 2, 0x25B),
  (0x191, 0x191, 2, 0x192), (0x193, 0x193, 2, 0x260), (0x194, 0x194, 2, 0x263),
  (0x196, 0x196, 2, 0x269), (0x197, 0x197, 2, 0x268), (0x198, 0x198, 2, 0x199),
  (0x19C, 0x19C, 2, 0x26F), (0x19D, 0x19D, 2, 0x272), (0x19F, 0x19F, 2, 0x275),
  (0x1A0, 0x1A4, 2, 0x1A1), (0x1A6, 0x1A6, 2, 0x280), (0x1A7, 0x1A7, 2, 0x1A8),
  (0x1A9, 0x1A9, 2, 0x283), (0x1AC, 0x1AC, 2, 0x1AD), (0x1AE, 0x1AE, 2, 0x288),
  (0x1AF, 0x1AF, 2, 0x1B0), (0x1B1, 0x1B2, 1, 0x28A), (0x1B3, 0x1B5, 2, 0x1B4),
  (0x1B7, 0x1B7, 2, 0x292), (0x1B8, 0x1B8, 2, 0x1B9), (0x1BC, 0x1BC, 2, 0x1BD),
  (0x1C4, 0x1C4, 2, 0x1C6), (0x1C5, 0x1C5, 2, 0x1C6), (0x1C7, 0x1C7, 2, 0x1C9),
  (0x1C8, 0x1C8, 2, 0x1C9), (0x1CA, 0x1CA, 2, 0x1CC), (0x1CB, 0x1DB, 2, 0x1CC),
  (0x1DE, 0x1EE, 2, 0x1DF), (0x1F1, 0x1F1, 2, 0x1F3), (0x1F2, 0x1F4, 2, 0x1F3),
  (0x1F6, 0x1F6, 2, 0x195), (0x1F7, 0x1F7, 2, 0x1BF), (0x1F8, 0x21E, 2, 0x1F9),
  (0x220, 0x220, 2, 0x19E), (0x222, 0x232, 2, 0x223), (0x23A, 0x23A, 2, 0x2C65),
  (0x23B, 0x23B, 2, 0x23C), (0x23D, 0x23D, 2, 0x19A), (0x23E, 0x23E, 2, 0x2C66),
  (0x241, 0x241, 2, 0x242), (0x243, 0x243, 2, 0x180), (0x244, 0x244, 2, 0x289),
  (0x245, 0x245, 2, 0x28C), (0x246, 0x24E, 2, 0x247), (0x370, 0x372, 2, 0x371),
  (0x376, 0x376, 2, 0x377), (0x37F, 0x37F, 2, 0x3F3), (0x386, 0x386, 2, 0x3AC),
  (0x388, 0x38A, 1, 0x3AD), (0x38C, 0x38C, 2, 0x3CC), (0x38E, 0x38F, 1, 0x3CD),
  (0x391, 0x3A1, 1, 0x3B1), (0x3A3, 0x3AB, 1, 0x3C3), (0x3CF, 0x3CF, 2, 0x3D7),
  (0x3D8, 0x3EE, 2, 0x3D9), (0x3F4, 0x3F4, 2, 0x3B8), (0x3F7, 0x3F7, 2, 0x3F8),
  (0x3F9, 0x3F9, 2, 0x3F2), (0x3FA, 0x3FA, 2, 0x3FB), (0x3FD, 0x3FF, 1, 0x37B),
  (0x400, 0x40F, 1, 0x450), (0x410, 0x42F, 1, 0x430), (0x460, 0x480, 2, 0x461),
  (0x48A, 0x4BE, 2, 0x48B), (0x4C0, 0x4C0, 2, 0x4CF), (0x4C1, 0x4CD, 2, 0x4C2),
  (0x4D0, 0x52E, 2, 0x4D1), (0x531, 0x556, 1, 0x561), (0x10A0, 0x10C5, 1, 0x2D00),
  (0x10C7, 0x10C7, 2, 0x2D27), (0x10CD, 0x10CD, 2, 0x2D2D), (0x13A0, 0x13EF, 1, 0xAB70),
  (0x13F0, 0x13F5, 1, 0x13F8), (0x1C90, 0x1CBA, 1, 0x10D0), (0x1CBD, 0x1CBF, 1, 0x10FD),
  (0x1E00, 0x1E94, 2, 0x1E01), (0x1E9E, 0x1E9E, 2, 0xDF), (0x1EA0, 0x1EFE, 2, 0x1EA1),
  (0x1F08, 0x1F0F, 1, 0x1F00), (0x1F18, 0x1F1D, 1, 0x1F10), (0x1F28, 0x1F2F, 1, 0x1F20),
  (0x1F38, 0x1F3F, 1, 0x1F30), (0x1F48, 0x1F4D, 1, 0x1F40), (0x1F59, 0x1F5F, 2, 0x1F51),
  (0x1F68, 0x1F6F, 1, 0x1F60), (0x1F88, 0x1F8F, 1, 0x1F80), (0x1F98, 0x1F9F, 1, 0x1F90),
  (0x1FA8, 0x1FAF, 1, 0x1FA0), (0x1FB8, 0x1FB9, 1, 0x1FB0), (0x1FBA, 0x1FBB, 1, 0x1F70),
  (0x1FBC, 0x1FBC, 2, 0x1FB3), (0x1FC8, 0x1FCB, 1, 0x1F72), (0x1FCC, 0x1FCC, 2, 0x1FC3),
  (0x1FD8, 0x1FD9, 1, 0x1FD0), (0x1FDA, 0x1FDB, 1, 0x1F76), (0x1FE8, 0x1FE9, 1, 0x1FE0),
  (0x1FEA, 0x1FEB, 1, 0x1F7A), (0x1FEC, 0x1FEC, 2, 0x1FE5), (0x1FF8, 0x1FF9, 1, 0x1F78),
  (0x1FFA, 0x1FFB, 1, 0x1F7C), (0x1FFC, 0x1FFC, 2, 0x1FF3), (0x2126, 0x2126, 2, 0x3C9),
  (0x212A, 0x212A, 2, 0x6B), (0x212B, 0x212B, 2, 0xE5), (0x2132, 0x2132, 2, 0x214E),
  (0x2160, 0x216F, 1, 0x2170), (0x2183, 0x2183, 2, 0x2184), (0x24B6, 0x24CF, 1, 0x24D0),
  (0x2C00, 0x2C2F, 1, 0x2C30), (0x2C60, 0x2C60, 2, 0x2C61), (0x2C62, 0x2C62, 2, 0x26B),
  (0x2C63, 0x2C63, 2, 0x1D7D), (0x2C64, 0x2C64, 2, 0x27D), (0x2C67, 0x2C6B, 2, 0x2C68),
  (0x2C6D, 0x2C6D, 2, 0x251), (0x2C6E, 0x2C6E, 2, 0x271), (0x2C6F, 0x2C6F, 2, 0x250),
  (0x2C70, 0x2C70, 2, 0x252), (0x2C72, 0x2C72, 2, 0x2C73), (0x2C75, 0x2C75, 2, 0x2C76),
  (0x2C7E, 0x2C7F, 1, 0x23F), (0x2C80, 0x2CE2, 2, 0x2C81), (0x2CEB, 0x2CED, 2, 0x2CEC),
  (0x2CF2, 0x2CF2, 2, 0x2CF3), (0xA640, 0xA66C, 2, 0xA641), (0xA680, 0xA69A, 2, 0xA681),
  (0xA722, 0xA72E, 2, 0xA723), (0xA732, 0xA76E, 2, 0xA733), (0xA779, 0xA77B, 2, 0xA77A),
  (0xA77D, 0xA77D, 2, 0x1D79), (0xA77E, 0xA786, 2, 0xA77F), (0xA78B, 0xA78B, 2, 0xA78C),
  (0xA78D, 0xA78D, 2, 0x265), (0xA790, 0xA792, 2, 0xA791), (0xA796, 0xA7A8, 2, 0xA797),
  (0xA7AA, 0xA7AA, 2, 0x266), (0xA7AB, 0xA7AB, 2, 0x25C), (0xA7AC, 0xA7AC, 2, 0x261),
  (0xA7AD, 0xA7AD, 2, 0x26C), (0xA7AE, 0xA7AE, 2, 0x26A), (0xA7B0, 0xA7B0, 2, 0x29E),
  (0xA7B1, 0xA7B1, 2, 0x287), (0xA7B2, 0xA7B2, 2, 0x29D), (0xA7B3, 0xA7B3, 2, 0xAB53),
  (0xA7B4, 0xA7C2, 2, 0xA7B5), (0xA7C4, 0xA7C4, 2, 0xA794), (0xA7C5, 0xA7C5, 2, 0x282),
  (0xA7C6, 0xA7C6, 2, 0x1D8E), (0xA7C7, 0xA7C9, 2, 0xA7C8), (0xA7D0, 0xA7D0, 2, 0xA7D1),
  (0xA7D6, 0xA7D8, 2, 0xA7D7), (0xA7F5, 0xA7F5, 2, 0xA7F6), (0xFF21, 0xFF3A, 1, 0xFF41),
  (0x10400, 0x10427, 1, 0x10428), (0x104B0, 0x104D3, 1, 0x104D8), (0x10570, 0x1057A, 1, 0x10597),
  (0x1057C, 0x1058A, 1, 0x105A3), (0x1058C, 0x10592, 1, 0x105B3), (0x10594, 0x10595, 1, 0x105BB),
  (0x10C80, 0x10CB2, 1, 0x10CC0), (0x118A0, 0x118BF, 1, 0x118C0), (0x16E40, 0x16E5F, 1, 0x16E60),
  (0x1E900, 0x1E921, 1, 0x1E922)]

/-- The code points with the property `Cased` (DerivedCoreProperties.txt,
Unicode 14.0.0), in runs `(first, last)`. -/
def casedRuns : List (Nat × Nat) := [
  (0x41, 0x5A), (0x61, 0x7A), (0xAA, 0xAA), (0xB5, 0xB5), (0xBA, 0xBA),
  (0xC0, 0xD6), (0xD8, 0xF6), (0xF8, 0x1BA), (0x1BC, 0x1BF), (0x1C4, 0x293),
  (0x295, 0x2B8), (0x2C0, 0x2C1), (0x2E0, 0x2E4), (0x345, 0x345), (0x370, 0x373),
  (0x376, 0x377), (0x37A, 0x37D), (0x37F, 0x37F), (0x386, 0x386), (0x388, 0x38A),
  (0x38C, 0x38C), (0x38E, 0x3A1), (0x3A3, 0x3F5), (0x3F7, 0x481), (0x48A, 0x52F),
  (0x531, 0x556), (0x560, 0x588), (0x10A0, 0x10C5), (0x10C7, 0x10C7), (0x10CD, 0x10CD),
  (0x10D0, 0x10FA), (0x10FD, 0x10FF), (0x13A0, 0x13F5), (0x13F8, 0x13FD), (0x1C80, 0x1C88),
  (0x1C90, 0x1CBA), (0x1CBD, 0x1CBF), (0x1D00, 0x1DBF), (0x1E00, 0x1F15), (0x1F18, 0x1F1D),
  (0x1F20, 0x1F45), (0x1F48, 0x1F4D), (0x1F50, 0x1F57), (0x1F59, 0x1F59), (0x1F5B, 0x1F5B),
  (0x1F5D, 0x1F5D), (0x1F5F, 0x1F7D), (0x1F80, 0x1FB4), (0x1FB6, 0x1FBC), (0x1FBE, 0x1FBE),
  (0x1FC2, 0x1FC4), (0x1FC6, 0x1FCC), (0x1FD0, 0x1FD3), (0x1FD6, 0x1FDB), (0x1FE0, 0x1FEC),
  (0x1FF2, 0x1FF4), (0x1FF6, 0x1FFC), (0x2071, 0x2071), (0x207F, 0x207F), (0x2090, 0x209C),
  (0x2102, 0x2102), (0x2107, 0x2107), (0x210A, 0x2113), (0x2115, 0x2115), (0x2119, 0x211D),
  (0x2124, 0x2124), (0x2126, 0x2126), (0x2128, 0x2128), (0x212A, 0x212D), (0x212F, 0x2134),
  (0x2139, 0x2139), (0x213C, 0x213F), (0x2145, 0x2149), (0x214E, 0x214E), (0x2160, 0x217F),
  (0x2183, 0x2184), (0x24B6, 0x24E9), (0x2C00, 0x2CE4), (0x2CEB, 0x2CEE), (0x2CF2, 0x2CF3),
  (0x2D00, 0x2D25), (0x2D27, 0x2D27), (0x2D2D, 0x2D2D), (0xA640, 0xA66D), (0xA680, 0xA69D),
  (0xA722, 0xA787), (0xA78B, 0xA78E), (0xA790, 0xA7CA), (0xA7D0, 0xA7D1), (0xA7D3, 0xA7D3),
  (0xA7D5, 0xA7D9), (0xA7F5, 0xA7F6), (0xA7F8, 0xA7FA), (0xAB30, 0xAB5A), (0xAB5C, 0xAB68),
  (0xAB70, 0xABBF), (0xFB00, 0xFB06), (0xFB13, 0xFB17), (0xFF21, 0xFF3A), (0xFF41, 0xFF5A),
  (0x10400, 0x1044F), (0x104B0, 0x104D3), (0x104D8, 0x104FB), (0x10570, 0x1057A), (0x1057C, 0x1058A),
  (0x1058C, 0x10592), (0x10594, 0x10595), (0x10597, 0x105A1), (0x105A3, 0x105B1), (0x105B3, 0x105B9),
  (0x105BB, 0x105BC), (0x10780, 0x10780), (0x10783, 0x10785), (0x10787, 0x107B0), (0x107B2, 0x107BA),
  (0x10C80, 0x10CB2), (0x10CC0, 0x10CF2), (0x118A0, 0x118DF), (0x16E40, 0x16E7F), (0x1D400, 0x1D454),
  (0x1D456, 0x1D49C), (0x1D49E, 0x1D49F), (0x1D4A2, 0x1D4A2), (0x1D4A5, 0x1D4A6), (0x1D4A9, 0x1D4AC),
  (0x1D4AE, 0x1D4B9), (0x1D4BB, 0x1D4BB), (0x1D4BD, 0x1D4C3), (0x1D4C5, 0x1D505), (0x1D507, 0x1D50A),
  (0x1D50D, 0x1D514), (0x1D516, 0x1D51C), (0x1D51E, 0x1D539), (0x1D53B, 0x1D53E), (0x1D540, 0x1D544),
  (0x1D546, 0x1D546), (0x1D54A, 0x1D550), (0x1D552, 0x1D6A5), (0x1D6A8, 0x1D6C0), (0x1D6C2, 0x1D6DA),
  (0x1D6DC, 0x1D6FA), (0x1D6FC, 0x1D714), (0x1D716, 0x1D734), (0x1D736, 0x1D74E), (0x1D750, 0x1D76E),
  (0x1D770, 0x1D788), (0x1D78A, 0x1D7A8), (0x1D7AA, 0x1D7C2), (0x1D7C4, 0x1D7CB), (0x1DF00, 0x1DF09),
  (0x1DF0B, 0x1DF1E), (0x1E900, 0x1E943), (0x1F130, 0x1F149), (0x1F150, 0x1F169), (0x1F170, 0x1F189)]

/-- The code points with the property `Case_Ignorable`
(DerivedCoreProperties.txt, Unicode 14.0.0), in runs `(first, last)`. -/
def caseIgnorableRuns : List (Nat × Nat) := [
  (0x27, 0x27), (0x2E, 0x2E), (0x3A, 0x3A), (0x5E, 0x5E), (0x60, 0x60),
  (0xA8, 0xA8), (0xAD, 0xAD), (0xAF, 0xAF), (0xB4, 0xB4), (0xB7, 0xB8),
  (0x2B0, 0x36F), (0x374, 0x375), (0x37A, 0x37A), (0x384, 0x385), (0x387, 0x387),
  (0x483, 0x489), (0x559, 0x559), (0x55F, 0x55F), (0x591, 0x5BD), (0x5BF, 0x5BF),
  (0x5C1, 0x5C2), (0x5C4, 0x5C5), (0x5C7, 0x5C7), (0x5F4, 0x5F4), (0x600, 0x605),
  (0x610, 0x61A), (0x61C, 0x61C), (0x640, 0x640), (0x64B, 0x65F), (0x670, 0x670),
  (0x6D6, 0x6DD), (0x6DF, 0x6E8), (0x6EA, 0x6ED), (0x70F, 0x70F), (0x711, 0x711),
  (0x730, 0x74A), (0x7A6, 0x7B0), (0x7EB, 0x7F5), (0x7FA, 0x7FA), (0x7FD, 0x7FD),
  (0x816, 0x82D), (0x859, 0x85B), (0x888, 0x888), (0x890, 0x891), (0x898, 0x89F),
  (0x8C9, 0x902), (0x93A, 0x93A), (0x93C, 0x93C), (0x941, 0x948), (0x94D, 0x94D),
  (0x951, 0x957), (0x962, 0x963), (0x971, 0x971), (0x981, 0x981), (0x9BC, 0x9BC),
  (0x9C1, 0x9C4), (0x9CD, 0x9CD), (0x9E2, 0x9E3), (0x9FE, 0x9FE), (0xA01, 0xA02),
  (0xA3C, 0xA3C), (0xA41, 0xA42), (0xA47, 0xA48), (0xA4B, 0xA4D), (0xA51, 0xA51),
  (0xA70, 0xA71), (0xA75, 0xA75), (0xA81, 0xA82), (0xABC, 0xABC), (0xAC1, 0xAC5),
  (0xAC7, 0xAC8), (0xACD, 0xACD), (0xAE2, 0xAE3), (0xAFA, 0xAFF), (0xB01, 0xB01),
  (0xB3C, 0xB3C), (0xB3F, 0xB3F), (0xB41, 0xB44), (0xB4D, 0xB4D), (0xB55, 0xB56),
  (0xB62, 0xB63), (0xB82, 0xB82), (0xBC0, 0xBC0), (0xBCD, 0xBCD), (0xC00, 0xC00),
  (0xC04, 0xC04), (0xC3C, 0xC3C), (0xC3E, 0xC40), (0xC46, 0xC48), (0xC4A, 0xC4D),
  (0xC55, 0xC56), (0xC62, 0xC63), (0xC81, 0xC81), (0xCBC, 0xCBC), (0xCBF, 0xCBF),
  (0xCC6, 0xCC6), (0xCCC, 0xCCD), (0xCE2, 0xCE3), (0xD00, 0xD01), (0xD3B, 0xD3C),
  (0xD41, 0xD44), (0xD4D, 0xD4D), (0xD62, 0xD63), (0xD81, 0xD81), (0xDCA, 0xDCA),
  (0xDD2, 0xDD4), (0xDD6, 0xDD6), (0xE31, 0xE31), (0xE34, 0xE3A), (0xE46, 0xE4E),
  (0xEB1, 0xEB1), (0xEB4, 0xEBC), (0xEC6, 0xEC6), (0xEC8, 0xECD), (0xF18, 0xF19),
  (0xF35, 0xF35), (0xF37, 0xF37), (0xF39, 0xF39), (0xF71, 0xF7E), (0xF80, 0xF84),
  (0xF86, 0xF87), (0xF8D, 0xF97), (0xF99, 0xFBC), (0xFC6, 0xFC6), (0x102D, 0x1030),
  (0x1032, 0x1037), (0x1039, 0x103A), (0x103D, 0x103E), (0x1058, 0x1059), (0x105E, 0x1060),
  (0x1071, 0x1074), (0x1082, 0x1082), (0x1085, 0x1086), (0x108D, 0x108D), (0x109D, 0x109D),
  (0x10FC, 0x10FC), (0x135D, 0x135F), (0x1712, 0x1714), (0x1732, 0x1733), (0x1752, 0x1753),
  (0x1772, 0x1773), (0x17B4, 0x17B5), (0x17B7, 0x17BD), (0x17C6, 0x17C6), (0x17C9, 0x17D3),
  (0x17D7, 0x17D7), (0x17DD, 0x17DD), (0x180B, 0x180F), (0x1843, 0x1843), (0x1885, 0x1886),
  (0x18A9, 0x18A9), (0x1920, 0x1922), (0x1927, 0x1928), (0x1932, 0x1932), (0x1939, 0x193B),
  (0x1A17, 0x1A18), (0x1A1B, 0x1A1B), (0x1A56, 0x1A56), (0x1A58, 0x1A5E), (0x1A60, 0x1A60),
  (0x1A62, 0x1A62), (0x1A65, 0x1A6C), (0x1A73, 0x1A7C), (0x1A7F, 0x1A7F), (0x1AA7, 0x1AA7),
  (0x1AB0, 0x1ACE), (0x1B00, 0x1B03), (0x1B34, 0x1B34), (0x1B36, 0x1B3A), (0x1B3C, 0x1B3C),
  (0x1B42, 0x1B42), (0x1B6B, 0x1B73), (0x1B80, 0x1B81), (0x1BA2, 0x1BA5), (0x1BA8, 0x1BA9),
  (0x1BAB, 0x1BAD), (0x1BE6, 0x1BE6), (0x1BE8, 0x1BE9), (0x1BED, 0x1BED), (0x1BEF, 0x1BF1),
  (0x1C2C, 0x1C33), (0x1C36, 0x1C37), (0x1C78, 0x1C7D), (0x1CD0, 0x1CD2), (0x1CD4, 0x1CE0),
  (0x1CE2, 0x1CE8), (0x1CED, 0x1CED), (0x1CF4, 0x1CF4), (0x1CF8, 0x1CF9), (0x1D2C, 0x1D6A),
  (0x1D78, 0x1D78), (0x1D9B, 0x1DFF), (0x1FBD, 0x1FBD), (0x1FBF, 0x1FC1), (0x1FCD, 0x1FCF),
  (0x1FDD, 0x1FDF), (0x1FED, 0x1FEF), (0x1FFD, 0x1FFE), (0x200B, 0x200F), (0x2018, 0x2019),
  (0x2024, 0x2024), (0x2027, 0x2027), (0x202A, 0x202E), (0x2060, 0x2064), (0x2066, 0x206F),
  (0x2071, 0x2071), (0x207F, 0x207F), (0x2090, 0x209C), (0x20D0, 0x20F0), (0x2C7C, 0x2C7D),
  (0x2CEF, 0x2CF1), (0x2D6F, 0x2D6F), (0x2D7F, 0x2D7F), (0x2DE0, 0x2DFF), (0x2E2F, 0x2E2F),
  (0x3005, 0x3005), (0x302A, 0x302D), (0x3031, 0x3035), (0x303B, 0x303B), (0x3099, 0x309E),
  (0x30FC, 0x30FE), (0xA015, 0xA015), (0xA4F8, 0xA4FD), (0xA60C, 0xA60C), (0xA66F, 0xA672),
  (0xA674, 0xA67D), (0xA67F, 0xA67F), (0xA69C, 0xA69F), (0xA6F0, 0xA6F1), (0xA700, 0xA721),
  (0xA770, 0xA770), (0xA788, 0xA78A), (0xA7F2, 0xA7F4), (0xA7F8, 0xA7F9), (0xA802, 0xA802),
  (0xA806, 0xA806), (0xA80B, 0xA80B), (0xA825, 0xA826), (0xA82C, 0xA82C), (0xA8C4, 0xA8C5),
  (0xA8E0, 0xA8F1), (0xA8FF, 0xA8FF), (0xA926, 0xA92D), (0xA947, 0xA951), (0xA980, 0xA982),
  (0xA9B3, 0xA9B3), (0xA9B6, 0xA9B9), (0xA9BC, 0xA9BD), (0xA9CF, 0xA9CF), (0xA9E5, 0xA9E6),
  (0xAA29, 0xAA2E), (0xAA31, 0xAA32), (0xAA35, 0xAA36), (0xAA43, 0xAA43), (0xAA4C, 0xAA4C),
  (0xAA70, 0xAA70), (0xAA7C, 0xAA7C), (0xAAB0, 0xAAB0), (0xAAB2, 0xAAB4), (0xAAB7, 0xAAB8),
  (0xAABE, 0xAABF), (0xAAC1, 0xAAC1), (0xAADD, 0xAADD), (0xAAEC, 0xAAED), (0xAAF3, 0xAAF4),
  (0xAAF6, 0xAAF6), (0xAB5B, 0xAB5F), (0xAB69, 0xAB6B), (0xABE5, 0xABE5), (0xABE8, 0xABE8),
  (0xABED, 0xABED), (0xFB1E, 0xFB1E), (0xFBB2, 0xFBC2), (0xFE00, 0xFE0F), (0xFE13, 0xFE13),
  (0xFE20, 0xFE2F), (0xFE52, 0xFE52), (0xFE55, 0xFE55), (0xFEFF, 0xFEFF), (0xFF07, 0xFF07),
  (0xFF0E, 0xFF0E), (0xFF1A, 0xFF1A), (0xFF3E, 0xFF3E), (0xFF40, 0xFF40), (0xFF70, 0xFF70),
  (0xFF9E, 0xFF9F), (0xFFE3, 0xFFE3), (0xFFF9, 0xFFFB), (0x101FD, 0x101FD), (0x102E0, 0x102E0),
  (0x10376, 0x1037A), (0x10780, 0x10785), (0x10787, 0x107B0), (0x107B2, 0x107BA), (0x10A01, 0x10A03),
  (0x10A05, 0x10A06), (0x10A0C, 0x10A0F), (0x10A38, 0x10A3A), (0x10A3F, 0x10A3F), (0x10AE5, 0x10AE6),
  (0x10D24, 0x10D27), (0x10EAB, 0x10EAC), (0x10F46, 0x10F50), (0x10F82, 0x10F85), (0x11001, 0x11001),
  (0x11038, 0x11046), (0x11070, 0x11070), (0x11073, 0x11074), (0x1107F, 0x11081), (0x110B3, 0x110B6),
  (0x110B9, 0x110BA), (0x110BD, 0x110BD), (0x110C2, 0x110C2), (0x110CD, 0x110CD), (0x11100, 0x11102),
  (0x11127, 0x1112B), (0x1112D, 0x11134), (0x11173, 0x11173), (0x11180, 0x11181), (0x111B6, 0x111BE),
  (0x111C9, 0x111CC), (0x111CF, 0x111CF), (0x1122F, 0x11231), (0x11234, 0x11234), (0x11236, 0x11237),
  (0x1123E, 0x1123E), (0x112DF, 0x112DF), (0x112E3, 0x112EA), (0x11300, 0x11301), (0x1133B, 0x1133C),
  (0x11340, 0x11340), (0x11366, 0x1136C), (0x11370, 0x11374), (0x11438, 0x1143F), (0x11442, 0x11444),
  (0x11446, 0x11446), (0x1145E, 0x1145E), (0x114B3, 0x114B8), (0x114BA, 0x114BA), (0x114BF, 0x114C0),
  (0x114C2, 0x114C3), (0x115B2, 0x115B5), (0x115BC, 0x115BD), (0x115BF, 0x115C0), (0x115DC, 0x115DD),
  (0x11633, 0x1163A), (0x1163D, 0x1163D), (0x1163F, 0x11640), (0x116AB, 0x116AB), (0x116AD, 0x116AD),
  (0x116B0, 0x116B5), (0x116B7, 0x116B7), (0x1171D, 0x1171F), (0x11722, 0x11725), (0x11727, 0x1172B),
  (0x1182F, 0x11837), (0x11839, 0x1183A), (0x1193B, 0x1193C), (0x1193E, 0x1193E), (0x11943, 0x11943),
  (0x119D4, 0x119D7), (0x119DA, 0x119DB), (0x119E0, 0x119E0), (0x11A01, 0x11A0A), (0x11A33, 0x11A38),
  (0x11A3B, 0x11A3E), (0x11A47, 0x11A47), (0x11A51, 0x11A56), (0x11A59, 0x11A5B), (0x11A8A, 0x11A96),
  (0x11A98, 0x11A99), (0x11C30, 0x11C36), (0x11C38, 0x11C3D), (0x11C3F, 0x11C3F), (0x11C92, 0x11CA7),
  (0x11CAA, 0x11CB0), (0x11CB2, 0x11CB3), (0x11CB5, 0x11CB6), (0x11D31, 0x11D36), (0x11D3A, 0x11D3A),
  (0x11D3C, 0x11D3D), (0x11D3F, 0x11D45), (0x11D47, 0x11D47), (0x11D90, 0x11D91), (0x11D95, 0x11D95),
  (0x11D97, 0x11D97), (0x11EF3, 0x11EF4), (0x13430, 0x13438), (0x16AF0, 0x16AF4), (0x16B30, 0x16B36),
  (0x16B40, 0x16B43), (0x16F4F, 0x16F4F), (0x16F8F, 0x16F9F), (0x16FE0, 0x16FE1), (0x16FE3, 0x16FE4),
  (0x1AFF0, 0x1AFF3), (0x1AFF5, 0x1AFFB), (0x1AFFD, 0x1AFFE), (0x1BC9D, 0x1BC9E), (0x1BCA0, 0x1BCA3),
  (0x1CF00, 0x1CF2D), (0x1CF30, 0x1CF46), (0x1D167, 0x1D169), (0x1D173, 0x1D182), (0x1D185, 0x1D18B),
  (0x1D1AA, 0x1D1AD), (0x1D242, 0x1D244), (0x1DA00, 0x1DA36), (0x1DA3B, 0x1DA6C), (0x1DA75, 0x1DA75),
  (0x1DA84, 0x1DA84), (0x1DA9B, 0x1DA9F), (0x1DAA1, 0x1DAAF), (0x1E000, 0x1E006), (0x1E008, 0x1E018),
  (0x1E01B, 0x1E021), (0x1E023, 0x1E024), (0x1E026, 0x1E02A), (0x1E130, 0x1E13D), (0x1E2AE, 0x1E2AE),
  (0x1E2EC, 0x1E2EF), (0x1E8D0, 0x1E8D6), (0x1E944, 0x1E94B), (0x1F3FB, 0x1F3FF), (0xE0001, 0xE0001),
  (0xE0020, 0xE007F), (0xE0100, 0xE01EF)]

/-- Membership in a list of runs. -/
def inRuns (runs : List (Nat × Nat)) (n : Nat) : Bool :=
  runs.any fun r => r.1 ≤ n && n ≤ r.2

/-- The Unicode property `Cased`. -/
def isCased (n : Nat) : Bool := inRuns casedRuns n

/-- The Unicode property `Case_Ignorable`. -/
def isCaseIgnorable (n : Nat) : Bool := inRuns caseIgnorableRuns n

/-- Whether a run of `lowerRuns` maps the code point `c`. -/
def mapsPoint (c : Nat) (r : Nat × Nat × Nat × Nat) : Bool :=
  r.1 ≤ c && c ≤ r.2.1 && (c - r.1) % r.2.2.1 == 0

/-- The lowercase mapping of one code point, whatever stands around it: the
one mapping of two code points (SpecialCasing.txt: LATIN CAPITAL LETTER I
WITH DOT ABOVE gives `i` and COMBINING DOT ABOVE), else the mapping of
`lowerRuns`, else the code point itself. -/
def lowerOf (c : Nat) : List Nat :=
  if c = 0x130 then [0x69, 0x307]
  else
    match lowerRuns.find? (mapsPoint c) with
    | some r => [r.2.2.2 + (c - r.1)]
    | none => [c]

/-- Whether a cased letter comes next, case-ignorable code points skipped
(also used on the reversed text before a position). -/
def casedNext (s : List Nat) : Bool :=
  match s.dropWhile isCaseIgnorable with
  | [] => false
  | c :: _ => isCased c

/-- The lowercase of the code point `c` standing between `before` (reversed)
and `after`: a capital sigma that ends a word (condition `Final_Sigma` of
SpecialCasing.txt: a cased letter before it and none after it, case-ignorable
code points skipped) becomes the final sigma, every other code point takes
its mapping. -/
def lowerAt (before after : List Nat) (c : Nat) : List Nat :=
  if c = capitalSigma then
    if casedNext before && !casedNext after then [finalSigma] else [smallSigma]
  else lowerOf c

/-- Lowercase conversion of code points, left to right, `before` holding the
code points already passed (reversed). -/
def lowerPointsFrom (before : List Nat) : List Nat → List Nat
  | [] => []
  | c :: rest => lowerAt before rest c ++ lowerPointsFrom (c :: before) rest

/-- The built-in `String.prototype.toLowerCase`: the code points of the
string, lowered, as a string again. -/
def toLowerCase (s : Str) : Str :=
  fromCodePoints (lowerPointsFrom [] (toCodePoints s))

/-- The built-in `String.prototype.includes`: `t` occurs in `s` at some
position. -/
def includes (s t : Str) : Bool :=
  s.tails.any (fun u => t.isPrefixOf u)

/-- Truthiness of a string: every string but the empty one. -/
def truthy (s : Str) : Bool := !s.isEmpty

/-- The idiom `x || d` on a value that is a string or `undefined`. -/
def orDefault (x : Option Str) (d : Str) : Str :=
  match x with
  | some s => if truthy s then s else d
  | none => d

/-! ## Search filter -/

/-- A row of `#patients-table`: its `data-name` and `data-phone` attributes
and its inline `style.display`. -/
structure PatientRow where
  dataName : Option Str
  dataPhone : Option Str
  display : Str
  deriving DecidableEq, Repr

/-- The body of the `forEach` of the input listener, for one row. -/
def filterRow (term : Str) (row : PatientRow) : PatientRow :=
  let name := toLowerCase (orDefault row.dataName (js ""))
  let phone := toLowerCase (orDefault row.dataPhone (js ""))
  if !truthy term || includes name term || includes phone term then
    { row with display := js "" }
  else
    { row with display := js "none" }

/-- The input listener of `#patient-search`, `value` being
`event.target.value`. -/
def onSearchInput (value : Str) (rows : List PatientRow) : List PatientRow :=
  let term := toLowerCase (trim (orDefault (some value) (js "")))
  rows.map (filterRow term)

/-! ## Page -/

/-- The class that hides a modal. -/
def modalHidden : Str := js "modal--hidden"

/-- The method `classList.add`: the token is appended unless present. -/
def classAdd (cl : List Str) (t : Str) : List Str :=
  if t ∈ cl then cl else cl ++ [t]

/-- The method `classList.remove`. -/
def classRemove (cl : List Str) (t : Str) : List Str :=
  cl.filter (fun x => x ≠ t)

/-- A modal container (`#patient-modal`, `#appointment-modal`): its class
list, and whether a `.modal__backdrop` element is found inside it. -/
structure ModalEl where
  classList : List Str
  hasBackdrop : Bool
  deriving DecidableEq, Repr

/-- A `.btn-edit-patient` button: its data attributes. -/
structure PatientEditBtn where
  dataId : Option Str
  dataName : Option Str
  dataPhone : Option Str
  dataEmail : Option Str
  deriving DecidableEq, Repr

/-- What a delete button finds around itself in a table row: the
`textContent` of the cell matched by `td:first-child` (`td:nth-child(1)`) and
by `td:nth-child(2)`, when there is one. -/
structure RowCells where
  cell1 : Option Str
  cell2 : Option Str
  deriving DecidableEq, Repr

/-- A delete button (`.btn-delete-patient`, `.btn-delete-appointment`): the
form `closest("form")` finds, by an identifier, and the row `closest("tr")`
finds. -/
structure DeleteBtn where
  form : Option Nat
  row : Option RowCells
  deriving DecidableEq, Repr

/-- The data attributes of an appointment row. -/
structure ApptRow where
  dataAppointmentId : Option Str
  dataPatientId : Option Str
  dataDate : Option Str
  dataTime : Option Str
  dataStatusLabel : Option Str
  deriving DecidableEq, Repr

/-- A `.btn-edit-appointment` button: the row `closest("tr")` finds. -/
structure ApptEditBtn where
  row : Option ApptRow
  deriving DecidableEq, Repr

/-- The document as the script sees it: every element it looks up at
`DOMContentLoaded` (`none`, `false` or an empty list when the lookup finds
nothing) with the properties it reads or writes (`value` of an input,
`textContent` of a title). -/
structure Page where
  searchInput : Option Str
  patientRows : List PatientRow
  patientModal : Option ModalEl
  patientModalTitle : Option Str
  patientModalClose : Bool
  patientModalCancel : Bool
  openAddPatientBtn : Bool
  patientFieldId : Option Str
  patientFieldName : Option Str
  patientFieldPhone : Option Str
  patientFieldEmail : Option Str
  patientEditButtons : List PatientEditBtn
  patientDeleteButtons : List DeleteBtn
  apptModal : Option ModalEl
  apptModalTitle : Option Str
  apptModalClose : Bool
  apptModalCancel : Bool
  openAddApptBtn : Bool
  apptFieldId : Option Str
  apptFieldPatient : Option Str
  apptFieldDate : Option Str
  apptFieldTime : Option Str
  apptFieldStatus : Option Str
  apptEditButtons : List ApptEditBtn
  apptDeleteButtons : List DeleteBtn
  sidebarAddApptBtn : Bool
  sidebarAddPatientBtn : Bool
  deriving DecidableEq, Repr

/-- The elements whose text the script assigns. -/
inductive Slot
  | patientModalTitle | patientFieldId | patientFieldName | patientFieldPhone
  | patientFieldEmail | apptModalTitle | apptFieldId | apptFieldPatient
  | apptFieldDate | apptFieldTime | apptFieldStatus
  deriving DecidableEq, Repr

/-- The element of a slot, with its current text. -/
def Page.get (p : Page) : Slot → Option Str
  | .patientModalTitle => p.patientModalTitle
  | .patientFieldId => p.patientFieldId
  | .patientFieldName => p.patientFieldName
  | .patientFieldPhone => p.patientFieldPhone
  | .patientFieldEmail => p.patientFieldEmail
  | .apptModalTitle => p.apptModalTitle
  | .apptFieldId => p.apptFieldId
  | .apptFieldPatient => p.apptFieldPatient
  | .apptFieldDate => p.apptFieldDate
  | .apptFieldTime => p.apptFieldTime
  | .apptFieldStatus => p.apptFieldStatus

/-- The page with the text of a slot replaced. -/
def Page.put (p : Page) (s : Slot) (v : Str) : Page :=
  match s with
  | .patientModalTitle => { p with patientModalTitle := some v }
  | .patientFieldId => { p with patientFieldId := some v }
  | .patientFieldName => { p with patientFieldName := some v }
  | .patientFieldPhone => { p with patientFieldPhone := some v }
  | .patientFieldEmail => { p with patientFieldEmail := some v }
  | .apptModalTitle => { p with apptModalTitle := some v }
  | .apptFieldId => { p with apptFieldId := some v }
  | .apptFieldPatient => { p with apptFieldPatient := some v }
  | .apptFieldDate => { p with apptFieldDate := some v }
  | .apptFieldTime => { p with apptFieldTime := some v }
  | .apptFieldStatus => { p with apptFieldStatus := some v }

/-- An exception escaping a listener, with the page as it was left. -/
inductive Thrown
  | typeError (page : Page)
  deriving DecidableEq, Repr

/-- An assignment `el.value = v` (`el.textContent = v`) to an element looked
up at load: a TypeError when the lookup had returned `null`. -/
def assign (s : Slot) (v : Str) (p : Page) : Except Thrown Page :=
  match p.get s with
  | none => .error (.typeError p)
  | some _ => .ok (p.put s v)

/-- The `data` argument of `openPatientModal`; a key may be missing. -/
structure PatientData where
  id : Option Str
  name : Option Str
  phone : Option Str
  email : Option Str
  deriving DecidableEq, Repr

/-- The `data` argument of `openApptModal`; a key may be missing. -/
structure ApptData where
  id : Option Str
  patientId : Option Str
  date : Option Str
  time : Option Str
  status : Option Str
  deriving DecidableEq, Repr

/-- The function `openPatientModal`. -/
def openPatientModal (mode : Str) (data : PatientData) (p : Page) : Except Thrown Page :=
  match p.patientModal with
  | none => .ok p
  | some _ => do
    let p ←
      if mode = js "edit" then do
        let p ← assign .patientModalTitle (js "Edit patient") p
        let p ← assign .patientFieldId (orDefault data.id (js "")) p
        let p ← assign .patientFieldName (orDefault data.name (js "")) p
        let p ← assign .patientFieldPhone (orDefault data.phone (js "")) p
        assign .patientFieldEmail (orDefault data.email (js "")) p
      else do
        let p ← assign .patientModalTitle (js "Add patient") p
        let p ← assign .patientFieldId (js "") p
        let p ← assign .patientFieldName (js "") p
        let p ← assign .patientFieldPhone (js "") p
        assign .patientFieldEmail (js "") p
    pure { p with patientModal := p.patientModal.map fun m =>
      { m with classList := classRemove m.classList modalHidden } }

/-- The function `closePatientModal`. -/
def closePatientModal (p : Page) : Page :=
  match p.patientModal with
  | none => p
  | some m => { p with patientModal := some { m with classList := classAdd m.classList modalHidden } }

/-- The function `openApptModal`. -/
def openApptModal (mode : Str) (data : ApptData) (p : Page) : Except Thrown Page :=
  match p.apptModal with
  | none => .ok p
  | some _ => do
    let p ←
      if mode = js "edit" then do
        let p ← assign .apptModalTitle (js "Edit appointment") p
        let p ← assign .apptFieldId (orDefault data.id (js "")) p
        let p ← assign .apptFieldPatient (orDefault data.patientId (js "")) p
        let p ← assign .apptFieldDate (orDefault data.date (js "")) p
        let p ← assign .apptFieldTime (orDefault data.time (js "")) p
        match data.status with
        | some s => if truthy s then assign .apptFieldStatus s p else pure p
        | none => pure p
      else do
        let p ← assign .apptModalTitle (js "Add appointment") p
        let p ← assign .apptFieldId (js "") p
        let p ← assign .apptFieldPatient (js "") p
        let p ← assign .apptFieldDate (js "") p
        let p ← assign .apptFieldTime (js "") p
        assign .apptFieldStatus (js "Booked") p
    pure { p with apptModal := p.apptModal.map fun m =>
      { m with classList := classRemove m.classList modalHidden } }

/-- The function `closeApptModal`. -/
def closeApptModal (p : Page) : Page :=
  match p.apptModal with
  | none => p
  | some m => { p with apptModal := some { m with classList := classAdd m.classList modalHidden } }

/-- What a listener does outside the elements of the page. -/
inductive Effect
  | confirm (message : Str)
  | submit (form : Nat)
  | preventDefault
  deriving DecidableEq, Repr

/-- The payload an empty object literal gives: no key. -/
def PatientData.empty : PatientData := ⟨none, none, none, none⟩

/-- The payload an empty object literal gives: no key. -/
def ApptData.empty : ApptData := ⟨none, none, none, none, none⟩

/-- The click listener of a `.btn-edit-patient` button. -/
def onPatientEditClick (btn : PatientEditBtn) (p : Page) : Except Thrown Page :=
  let id := orDefault btn.dataId (js "")
  let name := orDefault btn.dataName (js "")
  let phone := orDefault btn.dataPhone (js "")
  let email := orDefault btn.dataEmail (js "")
  openPatientModal (js "edit") ⟨some id, some name, some phone, some email⟩ p

/-- The text a `.btn-delete-patient` button puts in its dialog. -/
def patientDeleteMessage (btn : DeleteBtn) : Str :=
  let name := orDefault ((btn.row.bind fun r => r.cell1).map trim) (js "this patient")
  js "Are you sure you want to delete " ++ name ++ js "? This cannot be undone."

/-- The click listener of a `.btn-delete-patient` button, `answer` being what
`window.confirm` returns. -/
def onPatientDeleteClick (btn : DeleteBtn) (answer : Bool) : List Effect :=
  match btn.form with
  | none => []
  | some form =>
    .confirm (patientDeleteMessage btn) :: (if answer then [.submit form] else [])

/-- The click listener of a `.btn-edit-appointment` button. -/
def onApptEditClick (btn : ApptEditBtn) (p : Page) : Except Thrown Page :=
  match btn.row with
  | none => .ok p
  | some row =>
    let id := orDefault row.dataAppointmentId (js "")
    let patientId := orDefault row.dataPatientId (js "")
    let date := orDefault row.dataDate (js "")
    let time := orDefault row.dataTime (js "")
    let statusLabel := orDefault row.dataStatusLabel (js "Booked")
    openApptModal (js "edit") ⟨some id, some patientId, some date, some time, some statusLabel⟩ p

/-- The text a `.btn-delete-appointment` button puts in its dialog, `row` being
the row around it. -/
def apptDeleteMessage (row : RowCells) : Str :=
  let time := orDefault (row.cell1.map trim) (js "")
  let patientName := orDefault (row.cell2.map trim) (js "this patient")
  js "Delete appointment at " ++ time ++ js " for " ++ patientName ++
    js "? This cannot be undone."

/-- The click listener of a `.btn-delete-appointment` button, `answer` being
what `window.confirm` returns. -/
def onApptDeleteClick (btn : DeleteBtn) (answer : Bool) : List Effect :=
  match btn.form, btn.row with
  | some form, some row =>
    .confirm (apptDeleteMessage row) :: (if answer then [.submit form] else [])
  | _, _ => []

/-- The events the script listens to: an input event on the search field, and
a click on each element it gives a listener (a button of a collection by its
index; a delete click with the answer the user gives to the dialog). -/
inductive Event
  | searchInput
  | openAddPatient
  | patientModalClose
  | patientModalCancel
  | patientBackdrop
  | patientEdit (i : Nat)
  | patientDelete (i : Nat) (answer : Bool)
  | openAddAppt
  | apptModalClose
  | apptModalCancel
  | apptBackdrop
  | apptEdit (i : Nat)
  | apptDelete (i : Nat) (answer : Bool)
  | sidebarAddAppt
  | sidebarAddPatient
  deriving DecidableEq, Repr

/-- One event on the page: the listener registered for it at load runs, if
there is one (an element that was not found has none). -/
def dispatch (e : Event) (p : Page) : Except Thrown (Page × List Effect) :=
  match e with
  | .searchInput =>
    match p.searchInput with
    | some value =>
      if p.patientRows.length ≠ 0 then
        .ok ({ p with patientRows := onSearchInput value p.patientRows }, [])
      else .ok (p, [])
    | none => .ok (p, [])
  | .openAddPatient =>
    if p.openAddPatientBtn then
      (openPatientModal (js "add") PatientData.empty p).map fun q => (q, [])
    else .ok (p, [])
  | .patientModalClose =>
    if p.patientModalClose then .ok (closePatientModal p, []) else .ok (p, [])
  | .patientModalCancel =>
    if p.patientModalCancel then .ok (closePatientModal p, [.preventDefault]) else .ok (p, [])
  | .patientBackdrop =>
    match p.patientModal with
    | some m => if m.hasBackdrop then .ok (closePatientModal p, []) else .ok (p, [])
    | none => .ok (p, [])
  | .patientEdit i =>
    match p.patientEditButtons[i]? with
    | some btn => (onPatientEditClick btn p).map fun q => (q, [])
    | none => .ok (p, [])
  | .patientDelete i answer =>
    match p.patientDeleteButtons[i]? with
    | some btn => .ok (p, onPatientDeleteClick btn answer)
    | none => .ok (p, [])
  | .openAddAppt =>
    if p.openAddApptBtn then
      (openApptModal (js "add") ApptData.empty p).map fun q => (q, [])
    else .ok (p, [])
  | .apptModalClose =>
    if p.apptModalClose then .ok (closeApptModal p, []) else .ok (p, [])
  | .apptModalCancel =>
    if p.apptModalCancel then .ok (closeApptModal p, [.preventDefault]) else .ok (p, [])
  | .apptBackdrop =>
    match p.apptModal with
    | some m => if m.hasBackdrop then .ok (closeApptModal p, []) else .ok (p, [])
    | none => .ok (p, [])
  | .apptEdit i =>
    match p.apptEditButtons[i]? with
    | some btn => (onApptEditClick btn p).map fun q => (q, [])
    | none => .ok (p, [])
  | .apptDelete i answer =>
    match p.apptDeleteButtons[i]? with
    | some btn => .ok (p, onApptDeleteClick btn answer)
    | none => .ok (p, [])
  | .sidebarAddAppt =>
    if p.sidebarAddApptBtn then
      (openApptModal (js "add") ApptData.empty p).map fun q => (q, [])
    else .ok (p, [])
  | .sidebarAddPatient =>
    if p.sidebarAddPatientBtn then
      (openPatientModal (js "add") PatientData.empty p).map fun q => (q, [])
    else .ok (p, [])

/-! ## Words of the specification -/

/-- The condition under which the specification shows the row `R` for the
value `V` of the search field. -/
def shownFor (V : Str) (R : PatientRow) : Prop :=
  toLowerCase (trim V) = [] ∨
  toLowerCase (trim V) <:+: toLowerCase (R.dataName.getD []) ∨
  toLowerCase (trim V) <:+: toLowerCase (R.dataPhone.getD [])

/-- Two code points that are the same letter: equal, or one the lowercase
mapping of the other. -/
def sameLetter (a b : Nat) : Bool :=
  a == b || lowerOf a == [b] || lowerOf b == [a]

/-- Two lists of code points that are letter for letter the same. -/
def differOnlyInCasePoints : List Nat → List Nat → Bool
  | [], [] => true
  | a :: s, b :: t => sameLetter a b && differOnlyInCasePoints s t
  | _, _ => false

/-- Two strings that differ only in the case of their letters, code point by
code point. -/
def differOnlyInCase (s t : Str) : Bool :=
  differOnlyInCasePoints (toCodePoints s) (toCodePoints t)

/-- Whether a capital sigma occurs in a string. -/
def hasCapitalSigma (s : Str) : Bool := s.contains capitalSigma

/-- A string and what is put in its place: the string itself, or a string
that differs from it only in the case of its letters, no capital sigma
occurring in either. -/
def caseReplaced (s t : Str) : Bool :=
  s == t || (differOnlyInCase s t && !hasCapitalSigma s && !hasCapitalSigma t)

/-- An attribute and what is put in its place: both missing, or both there
and the second a `caseReplaced` of the first. -/
def attrCaseReplaced : Option Str → Option Str → Bool
  | none, none => true
  | some s, some t => caseReplaced s t
  | _, _ => false

/-- A patient row carrying the name `ΑΣ` in capitals and no phone. -/
def sigmaRow : PatientRow := ⟨some (js "ΑΣ"), none, js ""⟩

/-- A patient row whose name is the one letter DESERET CAPITAL LETTER LONG I
(U+10400), a surrogate pair. -/
def deseretRow : PatientRow := ⟨some [0xD801, 0xDC00], none, js ""⟩

/-- The patient row of the scenario of the specification. -/
def janeRow : PatientRow := ⟨some (js "Jane Doe"), some (js "5551234"), js ""⟩

/-- The patient modal is whole: container, title and the four fields are all
found. -/
def patientModalComplete (p : Page) : Bool :=
  p.patientModal.isSome && p.patientModalTitle.isSome && p.patientFieldId.isSome &&
  p.patientFieldName.isSome && p.patientFieldPhone.isSome && p.patientFieldEmail.isSome

/-- The appointment modal is whole: container, title and the five fields are
all found. -/
def apptModalComplete (p : Page) : Bool :=
  p.apptModal.isSome && p.apptModalTitle.isSome && p.apptFieldId.isSome &&
  p.apptFieldPatient.isSome && p.apptFieldDate.isSome && p.apptFieldTime.isSome &&
  p.apptFieldStatus.isSome

/-- The values of the fields of the patient form: id, name, phone, email. -/
def patientFields (p : Page) : List (Option Str) :=
  [p.patientFieldId, p.patientFieldName, p.patientFieldPhone, p.patientFieldEmail]

/-- The values of the fields of the appointment form: id, patient, date, time,
status. -/
def apptFields (p : Page) : List (Option Str) :=
  [p.apptFieldId, p.apptFieldPatient, p.apptFieldDate, p.apptFieldTime, p.apptFieldStatus]

/-- Whether a modal container carries the hidden class. -/
def isHidden (m : Option ModalEl) : Bool :=
  match m with
  | some m => decide (modalHidden ∈ m.classList)
  | none => false

/-- What an open trigger reads on the page: the data attributes of its button
(patient edit) or of its row (appointment edit), nothing for an add button;
`none` when the event is no open trigger or its button or row is not there. -/
def openTrigger (e : Event) (p : Page) : Option (List (Option Str)) :=
  match e with
  | .openAddPatient => if p.openAddPatientBtn then some [] else none
  | .sidebarAddPatient => if p.sidebarAddPatientBtn then some [] else none
  | .patientEdit i =>
    p.patientEditButtons[i]?.map fun b => [b.dataId, b.dataName, b.dataPhone, b.dataEmail]
  | .openAddAppt => if p.openAddApptBtn then some [] else none
  | .sidebarAddAppt => if p.sidebarAddApptBtn then some [] else none
  | .apptEdit i =>
    (p.apptEditButtons[i]?.bind fun b => b.row).map fun r =>
      [r.dataAppointmentId, r.dataPatientId, r.dataDate, r.dataTime, r.dataStatusLabel]
  | _ => none

/-- The field values of the modal an open trigger opens. -/
def openedFields (e : Event) (p : Page) : List (Option Str) :=
  match e with
  | .openAddPatient | .sidebarAddPatient | .patientEdit _ => patientFields p
  | .openAddAppt | .sidebarAddAppt | .apptEdit _ => apptFields p
  | _ => []

/-- Whether the modal an open trigger opens is whole. -/
def openedModalComplete (e : Event) (p : Page) : Bool :=
  match e with
  | .openAddPatient | .sidebarAddPatient | .patientEdit _ => patientModalComplete p
  | .openAddAppt | .sidebarAddAppt | .apptEdit _ => apptModalComplete p
  | _ => false

/-- Whether the container of the modal an open trigger opens is found. -/
def openedModalFound (e : Event) (p : Page) : Bool :=
  match e with
  | .openAddPatient | .sidebarAddPatient | .patientEdit _ => p.patientModal.isSome
  | .openAddAppt | .sidebarAddAppt | .apptEdit _ => p.apptModal.isSome
  | _ => false

/-- An open click that finds its trigger and the container of its modal, but
not the title or one of the fields of that modal. -/
def opensBrokenModal (e : Event) (p : Page) : Bool :=
  (openTrigger e p).isSome && openedModalFound e p && !openedModalComplete e p

/-- Whether the elements the listener of an event works on are all found: the
element listened to and, behind it, the search rows, the modal container, the
enclosing form or the enclosing row. -/
def requiredPresent (e : Event) (p : Page) : Bool :=
  match e with
  | .searchInput => p.searchInput.isSome && !p.patientRows.isEmpty
  | .openAddPatient => p.openAddPatientBtn && p.patientModal.isSome
  | .patientModalClose => p.patientModalClose && p.patientModal.isSome
  | .patientModalCancel => p.patientModalCancel && p.patientModal.isSome
  | .patientBackdrop =>
    match p.patientModal with
    | some m => m.hasBackdrop
    | none => false
  | .patientEdit i => p.patientEditButtons[i]?.isSome && p.patientModal.isSome
  | .patientDelete i _ =>
    match p.patientDeleteButtons[i]? with
    | some b => b.form.isSome
    | none => false
  | .openAddAppt => p.openAddApptBtn && p.apptModal.isSome
  | .apptModalClose => p.apptModalClose && p.apptModal.isSome
  | .apptModalCancel => p.apptModalCancel && p.apptModal.isSome
  | .apptBackdrop =>
    match p.apptModal with
    | some m => m.hasBackdrop
    | none => false
  | .apptEdit i =>
    match p.apptEditButtons[i]? with
    | some b => b.row.isSome && p.apptModal.isSome
    | none => false
  | .apptDelete i _ =>
    match p.apptDeleteButtons[i]? with
    | some b => b.form.isSome && b.row.isSome
    | none => false
  | .sidebarAddAppt => p.sidebarAddApptBtn && p.apptModal.isSome
  | .sidebarAddPatient => p.sidebarAddPatientBtn && p.patientModal.isSome

/-- A dashboard with every element in place: one patient, one appointment
whose status is "Completed", both modals hidden, values left in the fields by
earlier use. -/
def samplePage : Page where
  searchInput := some (js "")
  patientRows := [janeRow]
  patientModal := some ⟨[js "modal", modalHidden], true⟩
  patientModalTitle := some (js "Edit patient")
  patientModalClose := true
  patientModalCancel := true
  openAddPatientBtn := true
  patientFieldId := some (js "4")
  patientFieldName := some (js "John Roe")
  patientFieldPhone := some (js "5550000")
  patientFieldEmail := some (js "john@example.org")
  patientEditButtons := [⟨some (js "7"), some (js "Jane Doe"), some (js "5551234"), none⟩]
  patientDeleteButtons := [⟨some 1, some ⟨some (js " Jane Doe "), some (js "5551234")⟩⟩]
  apptModal := some ⟨[js "modal", modalHidden], true⟩
  apptModalTitle := some (js "Edit appointment")
  apptModalClose := true
  apptModalCancel := true
  openAddApptBtn := true
  apptFieldId := some (js "12")
  apptFieldPatient := some (js "4")
  apptFieldDate := some (js "2025-01-01")
  apptFieldTime := some (js "08:00")
  apptFieldStatus := some (js "Cancelled")
  apptEditButtons :=
    [⟨some ⟨some (js "3"), some (js "7"), some (js "2025-01-02"), some (js "09:30"),
      some (js "Completed")⟩⟩]
  apptDeleteButtons := [⟨some 2, some ⟨some (js "09:30"), some (js "Jane Doe")⟩⟩]
  sidebarAddApptBtn := true
  sidebarAddPatientBtn := true

/-- The sample dashboard with the patient modal open. -/
def visiblePage : Page := { samplePage with patientModal := some ⟨[js "modal"], true⟩ }

/-- The sample dashboard without the title element of the patient modal. -/
def untitledPage : Page := { samplePage with patientModalTitle := none }

/-- The sample dashboard without the patient modal: container, title and
fields are all missing, the buttons are there. -/
def modalLessPage : Page :=
  { samplePage with
    patientModal := none, patientModalTitle := none, patientFieldId := none,
    patientFieldName := none, patientFieldPhone := none, patientFieldEmail := none }

/-- The sample dashboard with other values in the fields of both forms. -/
def otherFieldsPage : Page :=
  { samplePage with
    patientFieldId := some (js "9"), patientFieldName := some (js "Ann"),
    patientFieldPhone := some (js ""), patientFieldEmail := some (js "a@b.c"),
    apptFieldId := some (js ""), apptFieldPatient := some (js "9"),
    apptFieldDate := some (js ""), apptFieldTime := some (js "17:45"),
    apptFieldStatus := some (js "Booked") }

/-! ## Checks on the tables -/

/-- The runs of `isWhiteSpace`. -/
def whiteSpaceRuns : List (Nat × Nat) :=
  [(0x09, 0x0D), (0x20, 0x20), (0xA0, 0xA0), (0x1680, 0x1680), (0x2000, 0x200A),
    (0x2028, 0x2029), (0x202F, 0x202F), (0x205F, 0x205F), (0x3000, 0x3000), (0xFEFF, 0xFEFF)]

/-- No code point from `lo` to `hi` lies in one of the runs. -/
def runsMiss (runs : List (Nat × Nat)) (lo hi : Nat) : Bool :=
  runs.all fun w => hi < w.1 || w.2 < lo

/-- No image of the run `r` is mapped by the run `r2`: the images lie before
or after it, or both runs go in steps of two and the images fall between the
code points of `r2`. -/
def imagesMiss (r r2 : Nat × Nat × Nat × Nat) : Bool :=
  r.2.2.2 + (r.2.1 - r.1) < r2.1 || r2.2.1 < r.2.2.2 ||
  (r.2.2.1 == 2 && r2.2.2.1 == 2 && (r.2.2.2 + r2.1) % 2 == 1)

/-- What the proofs need of `lowerRuns`: no image is mapped again, none is
the one code point with a mapping of two, and neither the mapped code points
nor their images are white space. -/
def lowerRunsChecked : Bool :=
  lowerRuns.all fun r =>
    lowerRuns.all (imagesMiss r) &&
    (r.2.2.2 + (r.2.1 - r.1) < 0x130 || 0x130 < r.2.2.2) &&
    runsMiss whiteSpaceRuns r.1 r.2.1 &&
    runsMiss whiteSpaceRuns r.2.2.2 (r.2.2.2 + (r.2.1 - r.1))

/-! ## Lemmas on strings -/

theorem includes_iff (s t : Str) : includes s t = true ↔ t <:+: s := by
  unfold includes
  simp only [List.any_eq_true, List.mem_tails, List.isPrefixOf_iff_prefix]
  rw [List.infix_iff_prefix_suffix]
  constructor
  · rintro ⟨u, hu, hp⟩; exact ⟨u, hp, hu⟩
  · rintro ⟨u, hp, hu⟩; exact ⟨u, hu, hp⟩

theorem orDefault_nil (x : Option Str) : orDefault x [] = x.getD [] := by
  cases x with
  | none => rfl
  | some s => cases s <;> rfl

theorem js_empty : js "" = [] := rfl

theorem truthy_iff (s : Str) : truthy s = true ↔ s ≠ [] := by
  cases s <;> simp [truthy]

theorem filterRow_display (V : Str) (R : PatientRow) :
    (filterRow (toLowerCase (trim V)) R).display =
      if (toLowerCase (trim V) = [] ∨
        toLowerCase (trim V) <:+: toLowerCase (R.dataName.getD []) ∨
        toLowerCase (trim V) <:+: toLowerCase (R.dataPhone.getD [])) then js "" else js "none" := by
  unfold filterRow
  simp only [js_empty, orDefault_nil]
  by_cases h1 : toLowerCase (trim V) = []
  · simp [h1, truthy]
  · have ht : truthy (toLowerCase (trim V)) = true := (truthy_iff _).2 h1
    by_cases h2 : toLowerCase (trim V) <:+: toLowerCase (R.dataName.getD [])
    · simp [ht, (includes_iff _ _).2 h2, h2]
    · by_cases h3 : toLowerCase (trim V) <:+: toLowerCase (R.dataPhone.getD [])
      · simp [ht, (includes_iff _ _).2 h3, h3]
      · have i2 : includes (toLowerCase (R.dataName.getD [])) (toLowerCase (trim V)) = false := by
          rw [← Bool.not_eq_true, includes_iff]; exact h2
        have i3 : includes (toLowerCase (R.dataPhone.getD [])) (toLowerCase (trim V)) = false := by
          rw [← Bool.not_eq_true, includes_iff]; exact h3
        simp [ht, i2, i3, h1, h2, h3]

theorem filterRow_attrs (term : Str) (R : PatientRow) :
    (filterRow term R).dataName = R.dataName ∧ (filterRow term R).dataPhone = R.dataPhone := by
  simp only [filterRow]
  split <;> exact ⟨rfl, rfl⟩

theorem onSearchInput_eq (V : Str) (rows : List PatientRow) :
    onSearchInput V rows = rows.map (filterRow (toLowerCase (trim V))) := by
  unfold onSearchInput
  have : orDefault (some V) (js "") = V := by
    rw [js_empty, orDefault_nil]; rfl
  simp only [this]

theorem display_shown_iff (V : Str) (R : PatientRow) :
    ((filterRow (toLowerCase (trim V)) R).display = js "" ↔ shownFor V R) ∧
    ((filterRow (toLowerCase (trim V)) R).display = js "none" ↔ ¬ shownFor V R) := by
  have hne : js "none" ≠ js "" := by decide
  rw [filterRow_display]
  unfold shownFor
  by_cases h : (toLowerCase (trim V) = [] ∨
        toLowerCase (trim V) <:+: toLowerCase (R.dataName.getD []) ∨
        toLowerCase (trim V) <:+: toLowerCase (R.dataPhone.getD []))
  · rw [if_pos h]
    exact ⟨⟨fun _ => h, fun _ => rfl⟩, ⟨fun e => absurd e.symm hne, fun n => absurd h n⟩⟩
  · rw [if_neg h]
    exact ⟨⟨fun e => absurd e hne, fun n => absurd n h⟩, ⟨fun _ => h, fun _ => rfl⟩⟩

theorem toCodePoints_pair (a b : Nat) (rest : Str)
    (h : (isHighSurrogate a && isLowSurrogate b) = true) :
    toCodePoints (a :: b :: rest) =
      (0x10000 + (a - 0xD800) * 0x400 + (b - 0xDC00)) :: toCodePoints rest := by
  rw [toCodePoints, if_pos h]

theorem toCodePoints_unpaired (a b : Nat) (rest : Str)
    (h : (isHighSurrogate a && isLowSurrogate b) = false) :
    toCodePoints (a :: b :: rest) = a :: toCodePoints (b :: rest) := by
  rw [toCodePoints, if_neg (by simp [h])]

/-- A code unit in front of a string that does not pair with its head. -/
theorem toCodePoints_cons (a : Nat) (s : Str)
    (h : ∀ b ∈ s.head?, (isHighSurrogate a && isLowSurrogate b) = false) :
    toCodePoints (a :: s) = a :: toCodePoints s := by
  cases s with
  | nil => rfl
  | cons b rest => exact toCodePoints_unpaired a b rest (h b rfl)

theorem isWhiteSpace_not_high (u : Nat) (h : isWhiteSpace u = true) :
    isHighSurrogate u = false := by
  simp only [isWhiteSpace, Bool.or_eq_true, beq_iff_eq, Bool.and_eq_true,
    decide_eq_true_eq] at h
  simp only [isHighSurrogate, Bool.and_eq_false_iff, decide_eq_false_iff_not]
  omega

theorem isWhiteSpace_not_low (u : Nat) (h : isWhiteSpace u = true) :
    isLowSurrogate u = false := by
  simp only [isWhiteSpace, Bool.or_eq_true, beq_iff_eq, Bool.and_eq_true,
    decide_eq_true_eq] at h
  simp only [isLowSurrogate, Bool.and_eq_false_iff, decide_eq_false_iff_not]
  omega

theorem high_not_isWhiteSpace (u : Nat) (h : isHighSurrogate u = true) :
    isWhiteSpace u = false := by
  cases hw : isWhiteSpace u
  · rfl
  · rw [isWhiteSpace_not_high u hw] at h; cases h

theorem pair_not_isWhiteSpace (a b : Nat) :
    isWhiteSpace (0x10000 + (a - 0xD800) * 0x400 + (b - 0xDC00)) = false := by
  simp only [isWhiteSpace, Bool.or_eq_false_iff, beq_eq_false_iff_ne, ne_eq,
    Bool.and_eq_false_iff, decide_eq_false_iff_not]
  omega

/-- The strategy of every proof on `toCodePoints`: the empty string, one code
unit, a pair in front, a lone code unit in front. -/
theorem toCodePoints_induction (P : Str → Prop) (h0 : P [])
    (h1 : ∀ a, P [a])
    (hp : ∀ a b rest, (isHighSurrogate a && isLowSurrogate b) = true → P rest →
      P (a :: b :: rest))
    (hu : ∀ a b rest, (isHighSurrogate a && isLowSurrogate b) = false → P (b :: rest) →
      P (a :: b :: rest)) :
    ∀ s, P s
  | [] => h0
  | [a] => h1 a
  | a :: b :: rest => by
    cases hab : (isHighSurrogate a && isLowSurrogate b)
    · exact hu a b rest hab (toCodePoints_induction P h0 h1 hp hu (b :: rest))
    · exact hp a b rest hab (toCodePoints_induction P h0 h1 hp hu rest)

/-- Where two strings meet without a surrogate pair across the joint, the
code points of the whole are those of the parts. -/
theorem toCodePoints_append (u v : Str)
    (h : ∀ a ∈ u.getLast?, ∀ b ∈ v.head?, (isHighSurrogate a && isLowSurrogate b) = false) :
    toCodePoints (u ++ v) = toCodePoints u ++ toCodePoints v := by
  revert h
  refine toCodePoints_induction
    (fun u => (∀ a ∈ u.getLast?, ∀ b ∈ v.head?,
      (isHighSurrogate a && isLowSurrogate b) = false) →
      toCodePoints (u ++ v) = toCodePoints u ++ toCodePoints v) ?_ ?_ ?_ ?_ u
  · intro _; rfl
  · intro a h
    exact toCodePoints_cons a v (fun b hb => h a rfl b hb)
  · intro a b rest hab ih h
    have e : a :: b :: rest ++ v = a :: b :: (rest ++ v) := rfl
    rw [e, toCodePoints_pair a b _ hab, toCodePoints_pair a b _ hab, ih ?_]
    · rfl
    · intro x hx
      apply h x
      cases rest with
      | nil => cases hx
      | cons c r => simpa using hx
  · intro a b rest hab ih h
    have e : a :: b :: rest ++ v = a :: b :: (rest ++ v) := rfl
    rw [e, toCodePoints_unpaired a b _ hab, toCodePoints_unpaired a b _ hab]
    have := ih (fun x hx => h x (by simpa using hx))
    rw [List.cons_append] at this
    rw [this]; rfl

theorem toCodePoints_dropWhile (s : Str) :
    toCodePoints (s.dropWhile isWhiteSpace) = (toCodePoints s).dropWhile isWhiteSpace := by
  refine toCodePoints_induction
    (fun s => toCodePoints (s.dropWhile isWhiteSpace) =
      (toCodePoints s).dropWhile isWhiteSpace) rfl ?_ ?_ ?_ s
  · intro a
    show toCodePoints (List.dropWhile isWhiteSpace [a]) = List.dropWhile isWhiteSpace [a]
    cases h : isWhiteSpace a
    · rw [List.dropWhile_cons_of_neg (by simp [h])]; rfl
    · rw [List.dropWhile_cons_of_pos h]; rfl
  · intro a b rest hab _
    have ha : isWhiteSpace a = false :=
      high_not_isWhiteSpace a (by simp only [Bool.and_eq_true] at hab; exact hab.1)
    rw [List.dropWhile_cons_of_neg (by simp [ha]), toCodePoints_pair a b rest hab,
      List.dropWhile_cons_of_neg (by simp [pair_not_isWhiteSpace])]
  · intro a b rest hab ih
    rw [toCodePoints_unpaired a b rest hab]
    cases ha : isWhiteSpace a
    · rw [List.dropWhile_cons_of_neg (by simp [ha]), List.dropWhile_cons_of_neg (by simp [ha]),
        toCodePoints_unpaired a b rest hab]
    · rw [List.dropWhile_cons_of_pos ha, List.dropWhile_cons_of_pos ha]
      exact ih

theorem rdropWhile_cons (p : Nat → Bool) (a : Nat) (l : List Nat) :
    List.rdropWhile p (a :: l) =
      if (l.all p && p a) = true then [] else a :: List.rdropWhile p l := by
  induction l using List.reverseRecOn with
  | nil =>
    rw [List.rdropWhile_singleton]
    cases p a <;> simp
  | append_singleton l x ih =>
    rw [← List.cons_append, List.rdropWhile_concat, List.rdropWhile_concat, ih]
    cases hx : p x <;> simp [hx]

theorem toCodePoints_all_isWhiteSpace (s : Str) :
    (toCodePoints s).all isWhiteSpace = s.all isWhiteSpace := by
  refine toCodePoints_induction
    (fun s => (toCodePoints s).all isWhiteSpace = s.all isWhiteSpace) rfl (fun _ => rfl)
    ?_ ?_ s
  · intro a b rest hab _
    have ha : isWhiteSpace a = false :=
      high_not_isWhiteSpace a (by simp only [Bool.and_eq_true] at hab; exact hab.1)
    rw [toCodePoints_pair a b rest hab]
    simp [List.all_cons, ha, pair_not_isWhiteSpace]
  · intro a b rest hab ih
    rw [toCodePoints_unpaired a b rest hab, List.all_cons, List.all_cons, ih]

theorem head_of_initial (x l : List Nat) (b : Nat) (h : x <+: b :: l) :
    ∀ y ∈ x.head?, y = b := by
  intro y hy
  cases x with
  | nil => cases hy
  | cons c x =>
    obtain ⟨t, ht⟩ := h
    simp only [List.cons_append, List.cons.injEq] at ht
    simp only [List.head?_cons, Option.mem_def, Option.some.injEq] at hy
    rw [← hy]; exact ht.1

theorem toCodePoints_rdropWhile (s : Str) :
    toCodePoints (s.rdropWhile isWhiteSpace) = (toCodePoints s).rdropWhile isWhiteSpace := by
  refine toCodePoints_induction
    (fun s => toCodePoints (s.rdropWhile isWhiteSpace) =
      (toCodePoints s).rdropWhile isWhiteSpace) rfl ?_ ?_ ?_ s
  · intro a
    show toCodePoints (List.rdropWhile isWhiteSpace [a]) = List.rdropWhile isWhiteSpace [a]
    rw [List.rdropWhile_singleton]
    cases isWhiteSpace a <;> rfl
  · intro a b rest hab ih
    have hab' := hab
    simp only [Bool.and_eq_true] at hab'
    have ha : isWhiteSpace a = false := high_not_isWhiteSpace a hab'.1
    have hb : isWhiteSpace b = false := by
      cases hw : isWhiteSpace b
      · rfl
      · rw [isWhiteSpace_not_low b hw] at hab'; cases hab'.2
    rw [toCodePoints_pair a b rest hab, rdropWhile_cons _ a (b :: rest),
      rdropWhile_cons _ b rest, rdropWhile_cons _ _ (toCodePoints rest)]
    simp only [ha, hb, pair_not_isWhiteSpace, Bool.and_false, Bool.false_eq_true, if_false]
    rw [toCodePoints_pair a b _ hab, ih]
  · intro a b rest hab ih
    rw [toCodePoints_unpaired a b rest hab, rdropWhile_cons _ a (b :: rest),
      rdropWhile_cons _ a (toCodePoints (b :: rest)), toCodePoints_all_isWhiteSpace]
    split
    · rfl
    · rw [toCodePoints_cons, ih]
      intro y hy
      rw [head_of_initial _ _ _ (List.rdropWhile_prefix isWhiteSpace _) y hy]
      exact hab

/-- Trimming commutes with the passage to code points: the white space code
units are no surrogates. -/
theorem toCodePoints_trim (s : Str) : toCodePoints (trim s) = trim (toCodePoints s) := by
  unfold trim
  rw [toCodePoints_rdropWhile, toCodePoints_dropWhile]

theorem mem_toCodePoints (s : Str) : ∀ x ∈ toCodePoints s, x ∈ s ∨ 0x10000 ≤ x := by
  refine toCodePoints_induction
    (fun s => ∀ x ∈ toCodePoints s, x ∈ s ∨ 0x10000 ≤ x) ?_ ?_ ?_ ?_ s
  · intro x hx; cases hx
  · intro a x hx; exact Or.inl hx
  · intro a b rest hab ih x hx
    rw [toCodePoints_pair a b rest hab] at hx
    rcases List.mem_cons.1 hx with h | h
    · right; omega
    · rcases ih x h with h | h
      · exact Or.inl (List.mem_cons_of_mem _ (List.mem_cons_of_mem _ h))
      · exact Or.inr h
  · intro a b rest hab ih x hx
    rw [toCodePoints_unpaired a b rest hab] at hx
    rcases List.mem_cons.1 hx with h | h
    · left; rw [h]; exact List.mem_cons_self _ _
    · rcases ih x h with h | h
      · exact Or.inl (List.mem_cons_of_mem _ h)
      · exact Or.inr h

theorem no_sigma_toCodePoints (s : Str) (h : capitalSigma ∉ s) :
    capitalSigma ∉ toCodePoints s := by
  intro hm
  rcases mem_toCodePoints s _ hm with h1 | h1
  · exact h h1
  · simp [capitalSigma] at h1

theorem lowerRunsChecked_holds : lowerRunsChecked = true := by decide

theorem lowerAt_of_ne_sigma (b a : List Nat) (c : Nat) (h : c ≠ capitalSigma) :
    lowerAt b a c = lowerOf c := by
  unfold lowerAt
  rw [if_neg h]

theorem lowerPointsFrom_of_no_sigma (cs : List Nat) :
    ∀ b : List Nat, capitalSigma ∉ cs → lowerPointsFrom b cs = cs.flatMap lowerOf := by
  induction cs with
  | nil => intro b _; rfl
  | cons c cs ih =>
    intro b h
    rw [lowerPointsFrom, List.flatMap_cons,
      lowerAt_of_ne_sigma b cs c (fun e => h (e ▸ List.mem_cons_self _ _)),
      ih (c :: b) (fun m => h (List.mem_cons_of_mem _ m))]

/-- Without a capital sigma lowering goes code point by code point. -/
theorem toLowerCase_of_no_sigma (s : Str) (h : capitalSigma ∉ s) :
    toLowerCase s = fromCodePoints ((toCodePoints s).flatMap lowerOf) := by
  unfold toLowerCase
  rw [lowerPointsFrom_of_no_sigma _ [] (no_sigma_toCodePoints s h)]

theorem flatMap_within (f : Nat → List Nat) (x y : List Nat) (h : x <:+: y) :
    x.flatMap f <:+: y.flatMap f := by
  obtain ⟨a, b, rfl⟩ := h
  exact ⟨a.flatMap f, b.flatMap f, by simp [List.flatMap_append]⟩

theorem isWhiteSpace_inRuns (n : Nat) (h : isWhiteSpace n = true) :
    inRuns whiteSpaceRuns n = true := by
  simp only [isWhiteSpace, Bool.or_eq_true, beq_iff_eq, Bool.and_eq_true,
    decide_eq_true_eq] at h
  simp only [inRuns, whiteSpaceRuns, List.any_cons, List.any_nil, Bool.or_false,
    Bool.or_eq_true, Bool.and_eq_true, decide_eq_true_eq]
  omega

theorem runsMiss_sound (runs : List (Nat × Nat)) (lo hi n : Nat)
    (h : runsMiss runs lo hi = true) (h1 : lo ≤ n) (h2 : n ≤ hi) : inRuns runs n = false := by
  induction runs with
  | nil => rfl
  | cons w ws ih =>
    simp only [runsMiss, List.all_cons, Bool.and_eq_true, Bool.or_eq_true,
      decide_eq_true_eq] at h
    have := ih h.2
    simp only [inRuns, List.any_cons, Bool.or_eq_false_iff, Bool.and_eq_false_iff,
      decide_eq_false_iff_not] at this ⊢
    exact ⟨by omega, this⟩

theorem not_isWhiteSpace_of_runsMiss (lo hi n : Nat) (h : runsMiss whiteSpaceRuns lo hi = true)
    (h1 : lo ≤ n) (h2 : n ≤ hi) : isWhiteSpace n = false := by
  cases hw : isWhiteSpace n
  · rfl
  · have := isWhiteSpace_inRuns n hw
    rw [runsMiss_sound _ lo hi n h h1 h2] at this
    cases this

theorem lowerRuns_checked (r : Nat × Nat × Nat × Nat) (hr : r ∈ lowerRuns) :
    (∀ r2 ∈ lowerRuns, imagesMiss r r2 = true) ∧
    (r.2.2.2 + (r.2.1 - r.1) < 0x130 ∨ 0x130 < r.2.2.2) ∧
    runsMiss whiteSpaceRuns r.1 r.2.1 = true ∧
    runsMiss whiteSpaceRuns r.2.2.2 (r.2.2.2 + (r.2.1 - r.1)) = true := by
  have h := lowerRunsChecked_holds
  simp only [lowerRunsChecked, List.all_eq_true, Bool.and_eq_true, Bool.or_eq_true,
    decide_eq_true_eq] at h
  obtain ⟨⟨⟨h1, h2⟩, h3⟩, h4⟩ := h r hr
  exact ⟨h1, h2, h3, h4⟩

/-- A code point with a mapping of one code point is that code point, or a
code point of a run with its image. -/
theorem lowerOf_eq_singleton (a b : Nat) (h : lowerOf a = [b]) :
    a = b ∨ ∃ r ∈ lowerRuns, mapsPoint a r = true ∧ b = r.2.2.2 + (a - r.1) := by
  unfold lowerOf at h
  split at h
  · simp at h
  · split at h
    · rename_i r hr
      right
      refine ⟨r, List.mem_of_find?_eq_some hr, List.find?_some hr, ?_⟩
      simpa using h.symm
    · left; simpa using h

theorem lowerOf_of_not_mapped (b : Nat) (hb : b ≠ 0x130)
    (h : ∀ r ∈ lowerRuns, mapsPoint b r = false) : lowerOf b = [b] := by
  unfold lowerOf
  rw [if_neg hb]
  have : lowerRuns.find? (mapsPoint b) = none := by
    rw [List.find?_eq_none]
    intro r hr
    simp [h r hr]
  rw [this]

theorem imagesMiss_sound (r r2 : Nat × Nat × Nat × Nat) (a : Nat)
    (h : imagesMiss r r2 = true) (ha : mapsPoint a r = true) :
    mapsPoint (r.2.2.2 + (a - r.1)) r2 = false := by
  obtain ⟨lo, hi, st, t⟩ := r
  obtain ⟨lo2, hi2, st2, t2⟩ := r2
  simp only [imagesMiss, mapsPoint, Bool.or_eq_true, Bool.and_eq_true, decide_eq_true_eq,
    beq_iff_eq] at h ha
  simp only [mapsPoint, Bool.and_eq_false_iff, decide_eq_false_iff_not, beq_eq_false_iff_ne,
    ne_eq]
  rcases h with (h | h) | ⟨⟨h1, h2⟩, h3⟩
  · left; left; omega
  · left; right; omega
  · subst h1; subst h2
    by_cases hc : lo2 ≤ t + (a - lo)
    · right; omega
    · left; left; exact hc

/-- The lowercase mapping is idempotent: an image is not mapped again. -/
theorem lowerOf_image (a b : Nat) (h : lowerOf a = [b]) : lowerOf b = [b] := by
  rcases lowerOf_eq_singleton a b h with e | ⟨r, hr, ha, hb⟩
  · rw [← e]; rw [← e] at h; exact h
  · obtain ⟨h1, h2, _, _⟩ := lowerRuns_checked r hr
    have hlo : r.1 ≤ a ∧ a ≤ r.2.1 := by
      simp only [mapsPoint, Bool.and_eq_true, decide_eq_true_eq] at ha
      exact ⟨ha.1.1, ha.1.2⟩
    apply lowerOf_of_not_mapped
    · rw [hb]; omega
    · intro r2 hr2
      rw [hb]
      exact imagesMiss_sound r r2 a (h1 r2 hr2) ha

theorem lowerOf_not_isWhiteSpace (a b : Nat) (h : lowerOf a = [b]) (hab : a ≠ b) :
    isWhiteSpace a = false ∧ isWhiteSpace b = false := by
  rcases lowerOf_eq_singleton a b h with e | ⟨r, hr, ha, hb⟩
  · exact absurd e hab
  · obtain ⟨_, _, h3, h4⟩ := lowerRuns_checked r hr
    simp only [mapsPoint, Bool.and_eq_true, decide_eq_true_eq] at ha
    exact ⟨not_isWhiteSpace_of_runsMiss _ _ a h3 ha.1.1 ha.1.2,
      not_isWhiteSpace_of_runsMiss _ _ b h4 (by omega) (by omega)⟩

theorem trim_within (s : Str) : trim s <:+: s :=
  (List.rdropWhile_prefix isWhiteSpace _).isInfix.trans
    (List.dropWhile_suffix isWhiteSpace).isInfix

theorem infix_dropWhile (p : Nat → Bool) (x t : Str) (hx : ∀ y ∈ x.head?, p y = false)
    (h : x <:+: t) : x <:+: t.dropWhile p := by
  obtain ⟨a, b, rfl⟩ := h
  induction a with
  | nil =>
    cases x with
    | nil => exact ⟨[], _, rfl⟩
    | cons y x =>
      have hy : p y = false := hx y rfl
      have : ([] ++ (y :: x) ++ b).dropWhile p = y :: x ++ b := by
        simp [List.dropWhile_cons, hy]
      rw [this]
      exact ⟨[], b, rfl⟩
  | cons c a ih =>
    have e : (c :: a ++ x ++ b) = c :: (a ++ x ++ b) := by simp
    rw [e, List.dropWhile_cons]
    split
    · exact ih
    · exact ⟨c :: a, b, by simp⟩

theorem infix_rdropWhile (p : Nat → Bool) (x t : Str) (hx : ∀ y ∈ x.getLast?, p y = false)
    (h : x <:+: t) : x <:+: t.rdropWhile p := by
  unfold List.rdropWhile
  rw [← List.reverse_infix, List.reverse_reverse]
  apply infix_dropWhile
  · rw [List.head?_reverse]; exact hx
  · exact List.reverse_infix.2 h

theorem trim_head (s : Str) : ∀ y ∈ (trim s).head?, isWhiteSpace y = false := by
  intro y hy
  have hp : trim s <+: s.dropWhile isWhiteSpace := List.rdropWhile_prefix isWhiteSpace _
  have hd := List.head?_dropWhile_not isWhiteSpace s
  obtain ⟨r, hr⟩ := hp
  cases ht : trim s with
  | nil => rw [ht] at hy; cases hy
  | cons z u =>
    rw [ht] at hy hr
    cases hy
    rw [← hr] at hd
    simpa using hd

theorem trim_last (s : Str) : ∀ y ∈ (trim s).getLast?, isWhiteSpace y = false := by
  intro y hy
  by_cases hn : trim s = []
  · rw [hn] at hy; cases hy
  · have h := List.rdropWhile_last_not isWhiteSpace (s.dropWhile isWhiteSpace) hn
    rw [List.getLast?_eq_getLast _ hn] at hy
    cases hy
    simpa using h

theorem trim_mono (s t : Str) (h : s <:+: t) : trim s <:+: trim t := by
  unfold trim
  apply infix_rdropWhile _ _ _ (trim_last s)
  apply infix_dropWhile _ _ _ (trim_head s)
  exact (trim_within s).trans h

theorem filterRow_filterRow (t0 t1 : Str) (R : PatientRow) :
    filterRow t1 (filterRow t0 R) = filterRow t1 R := by
  have h := filterRow_attrs t0 R
  simp only [filterRow] at h ⊢
  split <;> split <;> simp_all

theorem sameLetter_lowerOf (a b : Nat) (h : sameLetter a b = true) : lowerOf a = lowerOf b := by
  simp only [sameLetter, Bool.or_eq_true, beq_iff_eq] at h
  rcases h with (h | h) | h
  · rw [h]
  · rw [h, lowerOf_image a b h]
  · rw [h, lowerOf_image b a h]

theorem sameLetter_isWhiteSpace (a b : Nat) (h : sameLetter a b = true) :
    isWhiteSpace a = isWhiteSpace b := by
  by_cases e : a = b
  · rw [e]
  · simp only [sameLetter, Bool.or_eq_true, beq_iff_eq] at h
    rcases h with (h | h) | h
    · exact absurd h e
    · obtain ⟨h1, h2⟩ := lowerOf_not_isWhiteSpace a b h e
      rw [h1, h2]
    · obtain ⟨h1, h2⟩ := lowerOf_not_isWhiteSpace b a h (fun x => e x.symm)
      rw [h1, h2]

theorem differOnlyInCasePoints_forall₂ :
    ∀ s t : List Nat, differOnlyInCasePoints s t = true →
      List.Forall₂ (fun a b => sameLetter a b = true) s t
  | [], [], _ => List.Forall₂.nil
  | a :: s, b :: t, h => by
    simp only [differOnlyInCasePoints, Bool.and_eq_true] at h
    exact List.Forall₂.cons h.1 (differOnlyInCasePoints_forall₂ s t h.2)
  | [], _ :: _, h => by simp [differOnlyInCasePoints] at h
  | _ :: _, [], h => by simp [differOnlyInCasePoints] at h

theorem forall₂_dropWhile (s t : List Nat)
    (h : List.Forall₂ (fun a b => sameLetter a b = true) s t) :
    List.Forall₂ (fun a b => sameLetter a b = true)
      (s.dropWhile isWhiteSpace) (t.dropWhile isWhiteSpace) := by
  induction h with
  | nil => exact List.Forall₂.nil
  | @cons a b s t hab hst ih =>
    have hw := sameLetter_isWhiteSpace a b hab
    cases ha : isWhiteSpace a
    · rw [List.dropWhile_cons_of_neg (by simp [ha]),
        List.dropWhile_cons_of_neg (by simp [← hw, ha])]
      exact List.Forall₂.cons hab hst
    · rw [List.dropWhile_cons_of_pos ha, List.dropWhile_cons_of_pos (by rw [← hw]; exact ha)]
      exact ih

theorem forall₂_trim (s t : List Nat)
    (h : List.Forall₂ (fun a b => sameLetter a b = true) s t) :
    List.Forall₂ (fun a b => sameLetter a b = true) (trim s) (trim t) := by
  unfold trim List.rdropWhile
  rw [List.forall₂_reverse_iff]
  apply forall₂_dropWhile
  rw [List.forall₂_reverse_iff]
  exact forall₂_dropWhile s t h

theorem forall₂_flatMap_lowerOf (s t : List Nat)
    (h : List.Forall₂ (fun a b => sameLetter a b = true) s t) :
    s.flatMap lowerOf = t.flatMap lowerOf := by
  induction h with
  | nil => rfl
  | @cons a b s t hab _ ih =>
    rw [List.flatMap_cons, List.flatMap_cons, sameLetter_lowerOf a b hab, ih]

theorem no_sigma_trim (s : Str) (h : capitalSigma ∉ s) : capitalSigma ∉ trim s :=
  fun m => h ((trim_within s).subset m)

theorem caseReplaced_cases (s t : Str) (h : caseReplaced s t = true) :
    s = t ∨ (List.Forall₂ (fun a b => sameLetter a b = true) (toCodePoints s) (toCodePoints t) ∧
      capitalSigma ∉ s ∧ capitalSigma ∉ t) := by
  simp only [caseReplaced, Bool.or_eq_true, beq_iff_eq, Bool.and_eq_true,
    Bool.not_eq_true', hasCapitalSigma] at h
  rcases h with h | ⟨⟨h1, h2⟩, h3⟩
  · exact Or.inl h
  · refine Or.inr ⟨differOnlyInCasePoints_forall₂ _ _ h1, ?_, ?_⟩
    · intro m; simp [List.contains_iff_exists_mem_beq, m] at h2
    · intro m; simp [List.contains_iff_exists_mem_beq, m] at h3

theorem lower_eq_of_caseReplaced (s t : Str) (h : caseReplaced s t = true) :
    toLowerCase s = toLowerCase t := by
  rcases caseReplaced_cases s t h with e | ⟨hf, hs, ht⟩
  · rw [e]
  · rw [toLowerCase_of_no_sigma s hs, toLowerCase_of_no_sigma t ht,
      forall₂_flatMap_lowerOf _ _ hf]

theorem term_eq_of_caseReplaced (s t : Str) (h : caseReplaced s t = true) :
    toLowerCase (trim s) = toLowerCase (trim t) := by
  rcases caseReplaced_cases s t h with e | ⟨hf, hs, ht⟩
  · rw [e]
  · rw [toLowerCase_of_no_sigma _ (no_sigma_trim s hs),
      toLowerCase_of_no_sigma _ (no_sigma_trim t ht), toCodePoints_trim, toCodePoints_trim,
      forall₂_flatMap_lowerOf _ _ (forall₂_trim _ _ hf)]

theorem lower_attr_eq (x y : Option Str) (h : attrCaseReplaced x y = true) :
    toLowerCase (x.getD []) = toLowerCase (y.getD []) := by
  cases x <;> cases y
  · rfl
  · simp [attrCaseReplaced] at h
  · simp [attrCaseReplaced] at h
  · exact lower_eq_of_caseReplaced _ _ h

/-- A substring that cuts no surrogate pair is a substring code point by code
point. -/
theorem toCodePoints_within (x y : Str) (h : x <:+: y)
    (hl : ∀ u ∈ x.head?, isLowSurrogate u = false)
    (hh : ∀ u ∈ x.getLast?, isHighSurrogate u = false) :
    toCodePoints x <:+: toCodePoints y := by
  obtain ⟨a, b, rfl⟩ := h
  cases x with
  | nil => exact ⟨[], toCodePoints (a ++ [] ++ b), rfl⟩
  | cons c x =>
    refine ⟨toCodePoints a, toCodePoints b, ?_⟩
    rw [toCodePoints_append (a ++ c :: x) b, toCodePoints_append a (c :: x)]
    · intro u _ v hv
      rw [hl v hv, Bool.and_false]
    · intro u hu v _
      rw [List.getLast?_append_of_ne_nil _ (List.cons_ne_nil c x)] at hu
      rw [hh u hu, Bool.false_and]

theorem shownFor_mono (V1 V2 : Str) (R : PatientRow) (h : V1 <:+: V2)
    (hs : capitalSigma ∉ V2) (hl : ∀ u ∈ V1.head?, isLowSurrogate u = false)
    (hh : ∀ u ∈ V1.getLast?, isHighSurrogate u = false) (h2 : shownFor V2 R) :
    shownFor V1 R := by
  have hs2 : capitalSigma ∉ trim V2 := no_sigma_trim V2 hs
  have hs1 : capitalSigma ∉ trim V1 := fun m => hs (h.subset ((trim_within V1).subset m))
  have hi : toLowerCase (trim V1) <:+: toLowerCase (trim V2) := by
    rw [toLowerCase_of_no_sigma _ hs1, toLowerCase_of_no_sigma _ hs2, toCodePoints_trim,
      toCodePoints_trim]
    exact flatMap_within _ _ _ (flatMap_within _ _ _
      (trim_mono _ _ (toCodePoints_within V1 V2 h hl hh)))
  unfold shownFor at h2 ⊢
  rcases h2 with h2 | h2 | h2
  · rw [h2] at hi
    exact Or.inl (List.infix_nil.1 hi)
  · exact Or.inr (Or.inl (hi.trans h2))
  · exact Or.inr (Or.inr (hi.trans h2))

/-! ## Search filter: properties -/

/-- C1: for every value `V` of the search field and every patient row `R`,
the input listener leaves the attributes of `R` alone and shows it (display
`""`) exactly when the term `lowercase(trim(V))` is empty or occurs in the
lowercased name or phone attribute (a missing attribute counting as the empty
string), and hides it (display `"none"`) exactly otherwise. For the row named
"Jane Doe" with phone "5551234": "jane" shows it, "999" hides it, "" shows
it. -/
theorem search_filter_shows_iff (V : Str) (rows : List PatientRow) :
    List.Forall₂ (fun R R' =>
        R'.dataName = R.dataName ∧ R'.dataPhone = R.dataPhone ∧
        (R'.display = js "" ↔ shownFor V R) ∧ (R'.display = js "none" ↔ ¬ shownFor V R))
      rows (onSearchInput V rows) ∧
    onSearchInput (js "jane") [janeRow] = [{ janeRow with display := js "" }] ∧
    onSearchInput (js "999") [janeRow] = [{ janeRow with display := js "none" }] ∧
    onSearchInput (js "") [janeRow] = [{ janeRow with display := js "" }] := by
  refine ⟨?_, by decide, by decide, by decide⟩
  rw [onSearchInput_eq, List.forall₂_map_right_iff]
  exact List.forall₂_same.2 fun R _ =>
    ⟨(filterRow_attrs _ R).1, (filterRow_attrs _ R).2, (display_shown_iff V R).1,
      (display_shown_iff V R).2⟩

/-- C9 as stated fails: "ασ" and "ΑΣ" differ only in the case of their
letters, yet the row named "ΑΣ" is shown for the value "ΑΣ" and hidden for the
value "ασ" (the capital sigma that ends a word is lowered to the final sigma
"ς", not to "σ"). -/
theorem case_variant_changes_visibility_at_sigma :
    differOnlyInCase (js "ασ") (js "ΑΣ") = true ∧
    onSearchInput (js "ΑΣ") [sigmaRow] = [{ sigmaRow with display := js "" }] ∧
    onSearchInput (js "ασ") [sigmaRow] = [{ sigmaRow with display := js "none" }] := by
  decide

/-- C9, amended: replacing the value of the search field, and the name and
phone attributes of the rows, by strings that differ from them only in the
case of their letters, where no capital sigma occurs in a string that is
replaced or in what replaces it, leaves the visibility of every row after the
input listener unchanged. -/
theorem case_keeps_visibility_without_sigma (V V' : Str) (rows rows' : List PatientRow)
    (hV : caseReplaced V V' = true)
    (hR : List.Forall₂ (fun R R' =>
      attrCaseReplaced R.dataName R'.dataName = true ∧
      attrCaseReplaced R.dataPhone R'.dataPhone = true) rows rows') :
    List.Forall₂ (fun Q Q' => Q.display = Q'.display)
      (onSearchInput V rows) (onSearchInput V' rows') := by
  rw [onSearchInput_eq, onSearchInput_eq, List.forall₂_map_left_iff,
    List.forall₂_map_right_iff]
  refine hR.imp ?_
  intro R R' h
  rw [filterRow_display, filterRow_display, term_eq_of_caseReplaced V V' hV,
    lower_attr_eq _ _ h.1, lower_attr_eq _ _ h.2]

/-- The amended C9 at "ÉCOLE Д" and "école д", over a row named "École Дом"
and the same row in capitals, and over a row named "ΑΣ" that is left as it
is. -/
theorem case_keeps_visibility_without_sigma_witness :
    caseReplaced (js "ÉCOLE Д") (js "école д") = true ∧
    List.Forall₂ (fun Q Q' => Q.display = Q'.display)
      (onSearchInput (js "ÉCOLE Д") [⟨some (js "École Дом"), some (js "5551234"), js ""⟩,
        sigmaRow])
      (onSearchInput (js "école д") [⟨some (js "ÉCOLE ДОМ"), some (js "5551234"), js "none"⟩,
        sigmaRow]) :=
  ⟨by decide, case_keeps_visibility_without_sigma (js "ÉCOLE Д") (js "école д")
    [⟨some (js "École Дом"), some (js "5551234"), js ""⟩, sigmaRow]
    [⟨some (js "ÉCOLE ДОМ"), some (js "5551234"), js "none"⟩, sigmaRow] (by decide)
    (List.Forall₂.cons ⟨by decide, by decide⟩
      (List.Forall₂.cons ⟨by decide, by decide⟩ List.Forall₂.nil))⟩

/-- C10 as stated fails, in two ways. "Σ" is a substring of "ΑΣ", the row
named "ΑΣ" is shown for the value "ΑΣ" and hidden for the value "Σ" (alone,
the capital sigma is lowered to "σ"; at the end of "ΑΣ", to the final sigma
"ς"). The trailing surrogate U+DC00 is a substring of the pair U+D801 U+DC00,
the row named by that pair is shown for the pair and hidden for the trailing
surrogate alone (the pair is lowered as one letter, to U+D801 U+DC28). -/
theorem refining_reveals_row_at_sigma :
    (js "Σ" <:+: js "ΑΣ" ∧
      onSearchInput (js "ΑΣ") [sigmaRow] = [{ sigmaRow with display := js "" }] ∧
      onSearchInput (js "Σ") [sigmaRow] = [{ sigmaRow with display := js "none" }]) ∧
    ([0xDC00] <:+: [0xD801, 0xDC00] ∧
      onSearchInput [0xD801, 0xDC00] [deseretRow] = [{ deseretRow with display := js "" }] ∧
      onSearchInput [0xDC00] [deseretRow] = [{ deseretRow with display := js "none" }]) :=
  ⟨⟨⟨[0x391], [], rfl⟩, by decide, by decide⟩, ⟨⟨[0xD801], [], rfl⟩, by decide, by decide⟩⟩

/-- C10, amended: for all values `V1` and `V2` of the search field such that
`V1` is a substring of `V2`, `V2` holds no capital sigma and `V1` cuts no
surrogate pair (it neither begins with a trailing surrogate nor ends with a
leading one), every row shown after the input listener runs with `V2` is
shown after it runs with `V1`; and the result of a run is the same whatever
run came before it. -/
theorem refining_never_reveals_without_sigma (V1 V2 : Str) (rows : List PatientRow)
    (h : V1 <:+: V2) (hs : capitalSigma ∉ V2)
    (hl : ∀ u ∈ V1.head?, isLowSurrogate u = false)
    (hh : ∀ u ∈ V1.getLast?, isHighSurrogate u = false) :
    List.Forall₂ (fun Q1 Q2 => Q2.display = js "" → Q1.display = js "")
      (onSearchInput V1 rows) (onSearchInput V2 rows) ∧
    ∀ V0 : Str, onSearchInput V1 (onSearchInput V0 rows) = onSearchInput V1 rows := by
  constructor
  · rw [onSearchInput_eq, onSearchInput_eq, List.forall₂_map_left_iff,
      List.forall₂_map_right_iff]
    refine List.forall₂_same.2 fun R _ h2 => ?_
    exact (display_shown_iff V1 R).1.2
      (shownFor_mono V1 V2 R h hs hl hh ((display_shown_iff V2 R).1.1 h2))
  · intro V0
    rw [onSearchInput_eq, onSearchInput_eq, onSearchInput_eq, List.map_map]
    exact List.map_congr_left fun R _ => filterRow_filterRow _ _ R

/-- The amended C10 at "an" inside "Jane", over the row of the scenario. -/
theorem refining_never_reveals_without_sigma_witness :
    js "an" <:+: js "Jane" ∧
    List.Forall₂ (fun Q1 Q2 => Q2.display = js "" → Q1.display = js "")
      (onSearchInput (js "an") [janeRow]) (onSearchInput (js "Jane") [janeRow]) :=
  ⟨⟨[74], [101], rfl⟩,
    (refining_never_reveals_without_sigma (js "an") (js "Jane") [janeRow]
      ⟨[74], [101], rfl⟩ (by decide) (by decide) (by decide)).1⟩

/-! ## Lemmas on the modals -/

theorem classRemove_idem (cl : List Str) (t : Str) :
    classRemove (classRemove cl t) t = classRemove cl t := by
  unfold classRemove
  rw [List.filter_filter]
  simp

theorem openPatientModal_edit (P : PatientData) (p : Page)
    (h : patientModalComplete p = true) :
    openPatientModal (js "edit") P p = .ok
      { p with
        patientModalTitle := some (js "Edit patient")
        patientFieldId := some (P.id.getD [])
        patientFieldName := some (P.name.getD [])
        patientFieldPhone := some (P.phone.getD [])
        patientFieldEmail := some (P.email.getD [])
        patientModal := p.patientModal.map fun m =>
          { m with classList := classRemove m.classList modalHidden } } := by
  simp only [patientModalComplete, Bool.and_eq_true, Option.isSome_iff_exists] at h
  obtain ⟨⟨⟨⟨⟨⟨m, hm⟩, t, ht⟩, a, ha⟩, b, hb⟩, c, hc⟩, d, hd⟩ := h
  simp [openPatientModal, assign, Page.get, Page.put, hm, ht, ha, hb, hc, hd, bind,
    Except.bind, pure, Except.pure, js_empty, orDefault_nil]

theorem openPatientModal_add (mode : Str) (hmode : mode ≠ js "edit") (P : PatientData) (p : Page)
    (h : patientModalComplete p = true) :
    openPatientModal mode P p = .ok
      { p with
        patientModalTitle := some (js "Add patient")
        patientFieldId := some []
        patientFieldName := some []
        patientFieldPhone := some []
        patientFieldEmail := some []
        patientModal := p.patientModal.map fun m =>
          { m with classList := classRemove m.classList modalHidden } } := by
  simp only [patientModalComplete, Bool.and_eq_true, Option.isSome_iff_exists] at h
  obtain ⟨⟨⟨⟨⟨⟨m, hm⟩, t, ht⟩, a, ha⟩, b, hb⟩, c, hc⟩, d, hd⟩ := h
  simp [openPatientModal, assign, Page.get, Page.put, hm, ht, ha, hb, hc, hd, bind,
    Except.bind, pure, Except.pure, js_empty, hmode]

theorem openApptModal_edit (A : ApptData) (p : Page)
    (h : apptModalComplete p = true) :
    openApptModal (js "edit") A p = .ok
      { p with
        apptModalTitle := some (js "Edit appointment")
        apptFieldId := some (A.id.getD [])
        apptFieldPatient := some (A.patientId.getD [])
        apptFieldDate := some (A.date.getD [])
        apptFieldTime := some (A.time.getD [])
        apptFieldStatus :=
          match A.status with
          | some s => if truthy s then some s else p.apptFieldStatus
          | none => p.apptFieldStatus
        apptModal := p.apptModal.map fun m =>
          { m with classList := classRemove m.classList modalHidden } } := by
  simp only [apptModalComplete, Bool.and_eq_true, Option.isSome_iff_exists] at h
  obtain ⟨⟨⟨⟨⟨⟨⟨m, hm⟩, t, ht⟩, a, ha⟩, b, hb⟩, c, hc⟩, d, hd⟩, e, he⟩ := h
  cases hs : A.status with
  | none =>
    simp [openApptModal, assign, Page.get, Page.put, hm, ht, ha, hb, hc, hd, he, hs, bind,
      Except.bind, pure, Except.pure, js_empty, orDefault_nil]
  | some s =>
    by_cases hts : truthy s = true
    · simp [openApptModal, assign, Page.get, Page.put, hm, ht, ha, hb, hc, hd, he, hs, hts, bind,
        Except.bind, pure, Except.pure, js_empty, orDefault_nil]
    · simp [openApptModal, assign, Page.get, Page.put, hm, ht, ha, hb, hc, hd, he, hs, hts, bind,
        Except.bind, pure, Except.pure, js_empty, orDefault_nil]

theorem openApptModal_add (mode : Str) (hmode : mode ≠ js "edit") (A : ApptData) (p : Page)
    (h : apptModalComplete p = true) :
    openApptModal mode A p = .ok
      { p with
        apptModalTitle := some (js "Add appointment")
        apptFieldId := some []
        apptFieldPatient := some []
        apptFieldDate := some []
        apptFieldTime := some []
        apptFieldStatus := some (js "Booked")
        apptModal := p.apptModal.map fun m =>
          { m with classList := classRemove m.classList modalHidden } } := by
  simp only [apptModalComplete, Bool.and_eq_true, Option.isSome_iff_exists] at h
  obtain ⟨⟨⟨⟨⟨⟨⟨m, hm⟩, t, ht⟩, a, ha⟩, b, hb⟩, c, hc⟩, d, hd⟩, e, he⟩ := h
  simp [openApptModal, assign, Page.get, Page.put, hm, ht, ha, hb, hc, hd, he, bind,
    Except.bind, pure, Except.pure, js_empty, hmode]

theorem openPatientModal_absent (mode : Str) (P : PatientData) (p : Page)
    (h : p.patientModal = none) : openPatientModal mode P p = .ok p := by
  simp [openPatientModal, h]

theorem openApptModal_absent (mode : Str) (A : ApptData) (p : Page)
    (h : p.apptModal = none) : openApptModal mode A p = .ok p := by
  simp [openApptModal, h]

theorem add_ne_edit : js "add" ≠ js "edit" := by decide

/-! ## Modals: edit and add mode -/

theorem complete_after_patient (p : Page) (t a b c d : Str) (f : ModalEl → ModalEl)
    (h : patientModalComplete p = true) :
    patientModalComplete { p with
      patientModalTitle := some t, patientFieldId := some a, patientFieldName := some b,
      patientFieldPhone := some c, patientFieldEmail := some d,
      patientModal := p.patientModal.map f } = true := by
  simp only [patientModalComplete, Bool.and_eq_true, Option.isSome_iff_exists] at h ⊢
  obtain ⟨⟨⟨⟨⟨⟨m, hm⟩, _⟩, _⟩, _⟩, _⟩, _⟩ := h
  simp [hm]

theorem complete_after_appt (p : Page) (t a b c d e : Str) (f : ModalEl → ModalEl)
    (h : apptModalComplete p = true) :
    apptModalComplete { p with
      apptModalTitle := some t, apptFieldId := some a, apptFieldPatient := some b,
      apptFieldDate := some c, apptFieldTime := some d, apptFieldStatus := some e,
      apptModal := p.apptModal.map f } = true := by
  simp only [apptModalComplete, Bool.and_eq_true, Option.isSome_iff_exists] at h ⊢
  obtain ⟨⟨⟨⟨⟨⟨⟨m, hm⟩, _⟩, _⟩, _⟩, _⟩, _⟩, _⟩ := h
  simp [hm]

/-- C2: on a page whose patient modal is whole, opening it in edit mode with
a payload `P` sets the fields id, name, phone, email to `P.id`, `P.name`,
`P.phone`, `P.email`; on a page whose appointment modal is whole, opening it
in edit mode with a payload `A` sets id, patient, date, time to `A.id`,
`A.patientId`, `A.date`, `A.time`; the empty string stands for a missing key.
The status field is set to `A.status` when that is a non-empty string and
keeps its value when `A.status` is missing or empty. -/
theorem edit_mode_sets_fields (P : PatientData) (A : ApptData) (p : Page) :
    (patientModalComplete p = true → ∃ q, openPatientModal (js "edit") P p = .ok q ∧
      q.patientFieldId = some (P.id.getD (js "")) ∧
      q.patientFieldName = some (P.name.getD (js "")) ∧
      q.patientFieldPhone = some (P.phone.getD (js "")) ∧
      q.patientFieldEmail = some (P.email.getD (js ""))) ∧
    (apptModalComplete p = true → ∃ q, openApptModal (js "edit") A p = .ok q ∧
      q.apptFieldId = some (A.id.getD (js "")) ∧
      q.apptFieldPatient = some (A.patientId.getD (js "")) ∧
      q.apptFieldDate = some (A.date.getD (js "")) ∧
      q.apptFieldTime = some (A.time.getD (js "")) ∧
      (∀ s, A.status = some s → s ≠ js "" → q.apptFieldStatus = some s) ∧
      (A.status = none ∨ A.status = some (js "") → q.apptFieldStatus = p.apptFieldStatus)) := by
  refine ⟨fun hp => ⟨_, openPatientModal_edit P p hp, rfl, rfl, rfl, rfl⟩,
    fun ha => ⟨_, openApptModal_edit A p ha, rfl, rfl, rfl, rfl, ?_, ?_⟩⟩
  · intro s hs hne
    have : truthy s = true := (truthy_iff s).2 hne
    simp [hs, this]
  · intro h
    rcases h with h | h
    · simp [h]
    · simp [h, js_empty, truthy]

/-- C2 on the sample dashboard: a payload with `id` "7" only, and an
appointment payload without status. -/
theorem edit_mode_sets_fields_witness :
    (∃ q, openPatientModal (js "edit") ⟨some (js "7"), none, none, none⟩ samplePage = .ok q ∧
      q.patientFieldId = some (js "7") ∧ q.patientFieldName = some (js "")) ∧
    (∃ q, openApptModal (js "edit") ⟨some (js "3"), none, none, none, none⟩ samplePage = .ok q ∧
      q.apptFieldId = some (js "3") ∧ q.apptFieldStatus = some (js "Cancelled")) :=
  let h := edit_mode_sets_fields ⟨some (js "7"), none, none, none⟩
    ⟨some (js "3"), none, none, none, none⟩ samplePage
  ⟨let ⟨q, h0, h1, h2, _⟩ := h.1 (by decide); ⟨q, h0, h1, h2⟩,
   let ⟨q, h0, h1, _, _, _, _, h6⟩ := h.2 (by decide); ⟨q, h0, h1, h6 (Or.inl rfl)⟩⟩

/-- C3 as stated fails: on the sample dashboard the add-appointment button
leaves the status field equal to "Booked", not to the empty string. -/
theorem add_mode_status_not_blank :
    ∃ q, dispatch .openAddAppt samplePage = .ok (q, []) ∧
      q.apptFieldStatus = some (js "Booked") ∧ q.apptFieldStatus ≠ some (js "") :=
  ⟨_, rfl, rfl, by decide⟩

/-- C3, amended: whatever the fields held before, opening the patient modal
in add mode, on a page where it is whole, leaves id, name, phone and email
empty; opening the appointment modal in add mode, on a page where it is
whole, leaves id, patient, date and time empty and the status equal to
"Booked"; and opening either in add mode once more changes nothing. -/
theorem add_mode_resets_fields (P : PatientData) (A : ApptData) (p : Page) :
    (patientModalComplete p = true → ∃ q, openPatientModal (js "add") P p = .ok q ∧
      patientFields q = [some (js ""), some (js ""), some (js ""), some (js "")] ∧
      openPatientModal (js "add") P q = .ok q) ∧
    (apptModalComplete p = true → ∃ q, openApptModal (js "add") A p = .ok q ∧
      apptFields q =
        [some (js ""), some (js ""), some (js ""), some (js ""), some (js "Booked")] ∧
      openApptModal (js "add") A q = .ok q) := by
  refine ⟨fun hp => ⟨_, openPatientModal_add _ add_ne_edit P p hp, rfl, ?_⟩,
    fun ha => ⟨_, openApptModal_add _ add_ne_edit A p ha, rfl, ?_⟩⟩
  · rw [openPatientModal_add _ add_ne_edit P _ (complete_after_patient p _ _ _ _ _ _ hp)]
    simp [Option.map_map, Function.comp_def, classRemove_idem]
  · rw [openApptModal_add _ add_ne_edit A _ (complete_after_appt p _ _ _ _ _ _ _ ha)]
    simp [Option.map_map, Function.comp_def, classRemove_idem]

/-- The amended C3 on the sample dashboard, whose fields hold the values of an
earlier edit. -/
theorem add_mode_resets_fields_witness :
    (∃ q, openPatientModal (js "add") PatientData.empty samplePage = .ok q ∧
      patientFields q = [some (js ""), some (js ""), some (js ""), some (js "")]) ∧
    (∃ q, openApptModal (js "add") ApptData.empty samplePage = .ok q ∧
      apptFields q =
        [some (js ""), some (js ""), some (js ""), some (js ""), some (js "Booked")]) :=
  let h := add_mode_resets_fields PatientData.empty ApptData.empty samplePage
  ⟨let ⟨q, h0, h1, _⟩ := h.1 (by decide); ⟨q, h0, h1⟩,
   let ⟨q, h0, h1, _⟩ := h.2 (by decide); ⟨q, h0, h1⟩⟩

/-! ## Delete confirmation and close -/

theorem classAdd_of_mem (cl : List Str) (t : Str) (h : t ∈ cl) : classAdd cl t = cl := by
  simp [classAdd, h]

theorem mem_classAdd (cl : List Str) (t : Str) : t ∈ classAdd cl t := by
  unfold classAdd
  split
  · assumption
  · simp

/-- C4: a click on a patient delete button that has an enclosing form, and a
click on an appointment delete button that has an enclosing form and an
enclosing row, shows one confirmation dialog and nothing else when the dialog
is declined, one confirmation dialog followed by one submission of the
enclosing form when it is confirmed; the page (modals, fields, rows) is left
as it was. -/
theorem delete_confirms_then_submits (p : Page) (i : Nat) (b : DeleteBtn) (f : Nat) :
    (p.patientDeleteButtons[i]? = some b → b.form = some f →
      dispatch (.patientDelete i true) p =
        .ok (p, [.confirm (patientDeleteMessage b), .submit f]) ∧
      dispatch (.patientDelete i false) p = .ok (p, [.confirm (patientDeleteMessage b)])) ∧
    (∀ r : RowCells, p.apptDeleteButtons[i]? = some b → b.form = some f → b.row = some r →
      dispatch (.apptDelete i true) p =
        .ok (p, [.confirm (apptDeleteMessage r), .submit f]) ∧
      dispatch (.apptDelete i false) p = .ok (p, [.confirm (apptDeleteMessage r)])) := by
  refine ⟨fun hb hf => ⟨?_, ?_⟩, fun r hb hf hr => ⟨?_, ?_⟩⟩
  · simp only [dispatch, hb, onPatientDeleteClick, hf]; rfl
  · simp only [dispatch, hb, onPatientDeleteClick, hf]; rfl
  · simp only [dispatch, hb, onApptDeleteClick, hf, hr]; rfl
  · simp only [dispatch, hb, onApptDeleteClick, hf, hr]; rfl

/-- C4 on the sample dashboard, with the text of the two dialogs. -/
theorem delete_confirms_then_submits_witness :
    dispatch (.patientDelete 0 true) samplePage = .ok (samplePage,
      [.confirm (js "Are you sure you want to delete Jane Doe? This cannot be undone."),
        .submit 1]) ∧
    dispatch (.apptDelete 0 false) samplePage = .ok (samplePage,
      [.confirm (js "Delete appointment at 09:30 for Jane Doe? This cannot be undone.")]) :=
  ⟨((delete_confirms_then_submits samplePage 0 _ 1).1 rfl rfl).1,
    ((delete_confirms_then_submits samplePage 0 _ 2).2 _ rfl rfl rfl).2⟩

/-- C5: for each of the two modals, on a page where it has its close button,
its cancel button and its backdrop, the three ways of closing it end in one
and the same page: the modal carries the hidden class, its title and fields
and the whole other modal are what they were; and closing a modal that is
already hidden leaves the page as it was. -/
theorem close_triggers_agree (p : Page) (m : ModalEl) :
    (p.patientModal = some m → m.hasBackdrop = true → p.patientModalClose = true →
      p.patientModalCancel = true →
      ∃ q, dispatch .patientModalClose p = .ok (q, []) ∧
      dispatch .patientModalCancel p = .ok (q, [.preventDefault]) ∧
      dispatch .patientBackdrop p = .ok (q, []) ∧
      isHidden q.patientModal = true ∧
      q.patientModalTitle = p.patientModalTitle ∧ patientFields q = patientFields p ∧
      q.apptModal = p.apptModal ∧ q.apptModalTitle = p.apptModalTitle ∧
      apptFields q = apptFields p ∧
      (isHidden p.patientModal = true → q = p)) ∧
    (p.apptModal = some m → m.hasBackdrop = true → p.apptModalClose = true →
      p.apptModalCancel = true →
      ∃ q, dispatch .apptModalClose p = .ok (q, []) ∧
      dispatch .apptModalCancel p = .ok (q, [.preventDefault]) ∧
      dispatch .apptBackdrop p = .ok (q, []) ∧
      isHidden q.apptModal = true ∧
      q.apptModalTitle = p.apptModalTitle ∧ apptFields q = apptFields p ∧
      q.patientModal = p.patientModal ∧ q.patientModalTitle = p.patientModalTitle ∧
      patientFields q = patientFields p ∧
      (isHidden p.apptModal = true → q = p)) := by
  constructor
  · intro hm hmb hmc hmk
    refine ⟨closePatientModal p, ?_, ?_, ?_, ?_, ?_, ?_, ?_, ?_, ?_, ?_⟩
    · simp [dispatch, hmc]
    · simp [dispatch, hmk]
    · simp [dispatch, hm, hmb]
    · simp [closePatientModal, hm, isHidden, mem_classAdd]
    · simp [closePatientModal, hm]
    · simp [closePatientModal, hm, patientFields]
    · simp [closePatientModal, hm]
    · simp [closePatientModal, hm]
    · simp [closePatientModal, hm, apptFields]
    · intro h
      simp only [isHidden, hm, decide_eq_true_eq] at h
      simp only [closePatientModal, hm, classAdd_of_mem _ _ h]
      cases p; cases m; simp_all
  · intro ha hab hac hak
    refine ⟨closeApptModal p, ?_, ?_, ?_, ?_, ?_, ?_, ?_, ?_, ?_, ?_⟩
    · simp [dispatch, hac]
    · simp [dispatch, hak]
    · simp [dispatch, ha, hab]
    · simp [closeApptModal, ha, isHidden, mem_classAdd]
    · simp [closeApptModal, ha]
    · simp [closeApptModal, ha, apptFields]
    · simp [closeApptModal, ha]
    · simp [closeApptModal, ha]
    · simp [closeApptModal, ha, patientFields]
    · intro h
      simp only [isHidden, ha, decide_eq_true_eq] at h
      simp only [closeApptModal, ha, classAdd_of_mem _ _ h]
      cases p; cases m; simp_all

/-- C5 on the sample dashboard, whose modals are hidden, and on the same
dashboard with the patient modal open. -/
theorem close_triggers_agree_witness :
    (∃ q, dispatch .patientModalClose samplePage = .ok (q, []) ∧
      dispatch .patientModalCancel samplePage = .ok (q, [.preventDefault]) ∧
      dispatch .patientBackdrop samplePage = .ok (q, []) ∧
      isHidden q.patientModal = true ∧ patientFields q = patientFields samplePage) ∧
    (∃ q, dispatch .patientModalClose visiblePage = .ok (q, []) ∧
      dispatch .patientModalCancel visiblePage = .ok (q, [.preventDefault]) ∧
      dispatch .patientBackdrop visiblePage = .ok (q, []) ∧
      isHidden visiblePage.patientModal = false ∧ isHidden q.patientModal = true ∧
      patientFields q = patientFields visiblePage) := by
  obtain ⟨q, h1, h2, h3, h4, _, h6, _⟩ :=
    (close_triggers_agree samplePage _).1 rfl rfl rfl rfl
  obtain ⟨r, k1, k2, k3, k4, _, k6, _⟩ :=
    (close_triggers_agree visiblePage _).1 rfl rfl rfl rfl
  exact ⟨⟨q, h1, h2, h3, h4, h6⟩, ⟨r, k1, k2, k3, by decide, k4, k6⟩⟩

/-! ## Absent elements -/

/-- C6 as stated fails: on the sample dashboard without the title element of
the patient modal (the container is there), a click on the add-patient button
throws a TypeError. -/
theorem open_throws_without_title :
    untitledPage.patientModal.isSome = true ∧ untitledPage.patientModalTitle = none ∧
    dispatch .openAddPatient untitledPage = .error (.typeError untitledPage) :=
  ⟨rfl, rfl, rfl⟩

theorem openPatientModal_ok (mode : Str) (P : PatientData) (p : Page)
    (hp : p.patientModal = none ∨ patientModalComplete p = true) :
    ∃ q, openPatientModal mode P p = .ok q := by
  rcases hp with h | h
  · exact ⟨p, openPatientModal_absent mode P p h⟩
  · by_cases hm : mode = js "edit"
    · exact ⟨_, hm ▸ openPatientModal_edit P p h⟩
    · exact ⟨_, openPatientModal_add mode hm P p h⟩

theorem openApptModal_ok (mode : Str) (A : ApptData) (p : Page)
    (ha : p.apptModal = none ∨ apptModalComplete p = true) :
    ∃ q, openApptModal mode A p = .ok q := by
  rcases ha with h | h
  · exact ⟨p, openApptModal_absent mode A p h⟩
  · by_cases hm : mode = js "edit"
    · exact ⟨_, hm ▸ openApptModal_edit A p h⟩
    · exact ⟨_, openApptModal_add mode hm A p h⟩

theorem isSome_false (o : Option α) : o.isSome = false ↔ o = none := by
  cases o <;> simp

theorem closePatientModal_absent (p : Page) (h : p.patientModal = none) :
    closePatientModal p = p := by
  simp [closePatientModal, h]

theorem closeApptModal_absent (p : Page) (h : p.apptModal = none) :
    closeApptModal p = p := by
  simp [closeApptModal, h]

theorem dispatch_noop (p : Page) (e : Event) (h : requiredPresent e p = false) :
    dispatch e p = .ok (p, []) ∨ dispatch e p = .ok (p, [.preventDefault]) := by
  cases e with
  | searchInput =>
    left
    simp only [requiredPresent, Bool.and_eq_false_iff, isSome_false, Bool.not_eq_false', List.isEmpty_iff] at h
    rcases h with h | h
    · simp [dispatch, h]
    · simp only [dispatch, h]; split <;> simp
  | openAddPatient =>
    left
    simp only [requiredPresent, Bool.and_eq_false_iff, isSome_false] at h
    rcases h with h | h
    · simp [dispatch, h]
    · simp only [dispatch, openPatientModal_absent _ _ p h]; split <;> rfl
  | sidebarAddPatient =>
    left
    simp only [requiredPresent, Bool.and_eq_false_iff, isSome_false] at h
    rcases h with h | h
    · simp [dispatch, h]
    · simp only [dispatch, openPatientModal_absent _ _ p h]; split <;> rfl
  | openAddAppt =>
    left
    simp only [requiredPresent, Bool.and_eq_false_iff, isSome_false] at h
    rcases h with h | h
    · simp [dispatch, h]
    · simp only [dispatch, openApptModal_absent _ _ p h]; split <;> rfl
  | sidebarAddAppt =>
    left
    simp only [requiredPresent, Bool.and_eq_false_iff, isSome_false] at h
    rcases h with h | h
    · simp [dispatch, h]
    · simp only [dispatch, openApptModal_absent _ _ p h]; split <;> rfl
  | patientModalClose =>
    left
    simp only [requiredPresent, Bool.and_eq_false_iff, isSome_false] at h
    rcases h with h | h
    · simp [dispatch, h]
    · simp only [dispatch, closePatientModal_absent p h]; split <;> rfl
  | patientModalCancel =>
    simp only [requiredPresent, Bool.and_eq_false_iff, isSome_false] at h
    rcases h with h | h
    · left; simp [dispatch, h]
    · simp only [dispatch, closePatientModal_absent p h]
      split
      · right; rfl
      · left; rfl
  | apptModalClose =>
    left
    simp only [requiredPresent, Bool.and_eq_false_iff, isSome_false] at h
    rcases h with h | h
    · simp [dispatch, h]
    · simp only [dispatch, closeApptModal_absent p h]; split <;> rfl
  | apptModalCancel =>
    simp only [requiredPresent, Bool.and_eq_false_iff, isSome_false] at h
    rcases h with h | h
    · left; simp [dispatch, h]
    · simp only [dispatch, closeApptModal_absent p h]
      split
      · right; rfl
      · left; rfl
  | patientBackdrop =>
    left
    simp only [requiredPresent] at h
    simp only [dispatch]
    split <;> simp_all
  | apptBackdrop =>
    left
    simp only [requiredPresent] at h
    simp only [dispatch]
    split <;> simp_all
  | patientEdit i =>
    left
    simp only [requiredPresent, Bool.and_eq_false_iff, isSome_false] at h
    rcases h with h | h
    · simp [dispatch, h]
    · simp only [dispatch, onPatientEditClick, openPatientModal_absent _ _ p h]; split <;> rfl
  | apptEdit i =>
    left
    simp only [requiredPresent] at h
    simp only [dispatch]
    split
    · rename_i btn hb
      rw [hb] at h
      simp only [Bool.and_eq_false_iff, isSome_false] at h
      rcases h with h | h
      · simp only [onApptEditClick, h]; rfl
      · cases hr : btn.row with
        | none => simp only [onApptEditClick, hr]; rfl
        | some row => simp only [onApptEditClick, hr, openApptModal_absent _ _ p h]; rfl
    · rfl
  | patientDelete i answer =>
    left
    simp only [requiredPresent] at h
    simp only [dispatch]
    split
    · rename_i btn hb
      rw [hb] at h
      simp only [isSome_false] at h
      simp [onPatientDeleteClick, h]
    · rfl
  | apptDelete i answer =>
    left
    simp only [requiredPresent] at h
    simp only [dispatch]
    split
    · rename_i btn hb
      rw [hb] at h
      simp only [Bool.and_eq_false_iff, isSome_false] at h
      rcases h with h | h
      · simp [onApptDeleteClick, h]
      · cases hf : btn.form <;> simp [onApptDeleteClick, h, hf]
    · rfl

/-! ## Open triggers -/

theorem truthy_orDefault_booked (x : Option Str) :
    truthy (orDefault x (js "Booked")) = true := by
  cases x with
  | none => decide
  | some s =>
    cases s with
    | nil => decide
    | cons c s => rfl

theorem getD_orDefault (x : Option Str) : (some (orDefault x (js ""))).getD [] = x.getD [] := by
  rw [js_empty, orDefault_nil]; rfl

theorem dispatch_patientEdit (p : Page) (i : Nat) (btn : PatientEditBtn)
    (hc : patientModalComplete p = true) (hb : p.patientEditButtons[i]? = some btn) :
    dispatch (.patientEdit i) p = .ok
      ({ p with
        patientModalTitle := some (js "Edit patient")
        patientFieldId := some (btn.dataId.getD [])
        patientFieldName := some (btn.dataName.getD [])
        patientFieldPhone := some (btn.dataPhone.getD [])
        patientFieldEmail := some (btn.dataEmail.getD [])
        patientModal := p.patientModal.map fun m =>
          { m with classList := classRemove m.classList modalHidden } }, []) := by
  simp only [dispatch, hb, onPatientEditClick, openPatientModal_edit _ p hc, getD_orDefault]
  rfl

theorem dispatch_apptEdit (p : Page) (i : Nat) (btn : ApptEditBtn) (row : ApptRow)
    (hc : apptModalComplete p = true) (hb : p.apptEditButtons[i]? = some btn)
    (hr : btn.row = some row) :
    dispatch (.apptEdit i) p = .ok
      ({ p with
        apptModalTitle := some (js "Edit appointment")
        apptFieldId := some (row.dataAppointmentId.getD [])
        apptFieldPatient := some (row.dataPatientId.getD [])
        apptFieldDate := some (row.dataDate.getD [])
        apptFieldTime := some (row.dataTime.getD [])
        apptFieldStatus := some (orDefault row.dataStatusLabel (js "Booked"))
        apptModal := p.apptModal.map fun m =>
          { m with classList := classRemove m.classList modalHidden } }, []) := by
  simp only [dispatch, hb, onApptEditClick, hr, openApptModal_edit _ p hc, getD_orDefault,
    truthy_orDefault_booked, if_true]
  rfl

theorem dispatch_openAddPatient (p : Page) (hc : patientModalComplete p = true)
    (hb : p.openAddPatientBtn = true) :
    dispatch .openAddPatient p =
    .ok ({ p with
        patientModalTitle := some (js "Add patient")
        patientFieldId := some []
        patientFieldName := some []
        patientFieldPhone := some []
        patientFieldEmail := some []
        patientModal := p.patientModal.map fun m =>
          { m with classList := classRemove m.classList modalHidden } }, []) := by
  simp only [dispatch, hb, if_true, openPatientModal_add _ add_ne_edit _ p hc]
  rfl

theorem dispatch_sidebarAddPatient (p : Page) (hc : patientModalComplete p = true)
    (hb : p.sidebarAddPatientBtn = true) :
    dispatch .sidebarAddPatient p =
    .ok ({ p with
        patientModalTitle := some (js "Add patient")
        patientFieldId := some []
        patientFieldName := some []
        patientFieldPhone := some []
        patientFieldEmail := some []
        patientModal := p.patientModal.map fun m =>
          { m with classList := classRemove m.classList modalHidden } }, []) := by
  simp only [dispatch, hb, if_true, openPatientModal_add _ add_ne_edit _ p hc]
  rfl

theorem dispatch_openAddAppt (p : Page) (hc : apptModalComplete p = true)
    (hb : p.openAddApptBtn = true) :
    dispatch .openAddAppt p =
    .ok ({ p with
        apptModalTitle := some (js "Add appointment")
        apptFieldId := some []
        apptFieldPatient := some []
        apptFieldDate := some []
        apptFieldTime := some []
        apptFieldStatus := some (js "Booked")
        apptModal := p.apptModal.map fun m =>
          { m with classList := classRemove m.classList modalHidden } }, []) := by
  simp only [dispatch, hb, if_true, openApptModal_add _ add_ne_edit _ p hc]
  rfl

theorem dispatch_sidebarAddAppt (p : Page) (hc : apptModalComplete p = true)
    (hb : p.sidebarAddApptBtn = true) :
    dispatch .sidebarAddAppt p =
    .ok ({ p with
        apptModalTitle := some (js "Add appointment")
        apptFieldId := some []
        apptFieldPatient := some []
        apptFieldDate := some []
        apptFieldTime := some []
        apptFieldStatus := some (js "Booked")
        apptModal := p.apptModal.map fun m =>
          { m with classList := classRemove m.classList modalHidden } }, []) := by
  simp only [dispatch, hb, if_true, openApptModal_add _ add_ne_edit _ p hc]
  rfl

theorem if_some_isSome (b : Bool) (h : (if b = true then some ([] : List (Option Str)) else none).isSome = true) :
    b = true := by
  cases b <;> simp_all

theorem openPatientModal_throws (mode : Str) (P : PatientData) (p : Page)
    (hm : p.patientModal.isSome = true) (hc : patientModalComplete p = false) :
    ∃ t, openPatientModal mode P p = .error t := by
  cases h0 : p.patientModal with
  | none => rw [h0] at hm; cases hm
  | some m =>
    by_cases hmode : mode = js "edit" <;>
    cases h1 : p.patientModalTitle <;> cases h2 : p.patientFieldId <;>
    cases h3 : p.patientFieldName <;> cases h4 : p.patientFieldPhone <;>
    cases h5 : p.patientFieldEmail <;>
    simp [patientModalComplete, h0, h1, h2, h3, h4, h5] at hc <;>
    simp [openPatientModal, assign, Page.get, Page.put, h0, h1, h2, h3, h4, h5, hmode, bind,
      Except.bind]

theorem openApptModal_add_throws (A : ApptData) (p : Page)
    (hm : p.apptModal.isSome = true) (hc : apptModalComplete p = false) :
    ∃ t, openApptModal (js "add") A p = .error t := by
  cases h0 : p.apptModal with
  | none => rw [h0] at hm; cases hm
  | some m =>
    cases h1 : p.apptModalTitle <;> cases h2 : p.apptFieldId <;>
    cases h3 : p.apptFieldPatient <;> cases h4 : p.apptFieldDate <;>
    cases h5 : p.apptFieldTime <;> cases h6 : p.apptFieldStatus <;>
    simp [apptModalComplete, h0, h1, h2, h3, h4, h5, h6] at hc <;>
    simp [openApptModal, assign, Page.get, Page.put, h0, h1, h2, h3, h4, h5, h6, add_ne_edit,
      bind, Except.bind, pure, Except.pure]

theorem openApptModal_edit_throws (A : ApptData) (s : Str) (p : Page)
    (hs : A.status = some s) (hts : truthy s = true)
    (hm : p.apptModal.isSome = true) (hc : apptModalComplete p = false) :
    ∃ t, openApptModal (js "edit") A p = .error t := by
  cases h0 : p.apptModal with
  | none => rw [h0] at hm; cases hm
  | some m =>
    cases h1 : p.apptModalTitle <;> cases h2 : p.apptFieldId <;>
    cases h3 : p.apptFieldPatient <;> cases h4 : p.apptFieldDate <;>
    cases h5 : p.apptFieldTime <;> cases h6 : p.apptFieldStatus <;>
    simp [apptModalComplete, h0, h1, h2, h3, h4, h5, h6] at hc <;>
    simp [openApptModal, assign, Page.get, Page.put, h0, h1, h2, h3, h4, h5, h6, hs, hts,
      bind, Except.bind, pure, Except.pure]

theorem not_broken (t f c : Bool) (h : (t && f && !c) = false) (ht : t = true) :
    f = false ∨ c = true := by
  cases t <;> cases f <;> cases c <;> simp_all

theorem patient_none_or_complete (p : Page) (t : Bool)
    (h : (t && p.patientModal.isSome && !patientModalComplete p) = false) (ht : t = true) :
    p.patientModal = none ∨ patientModalComplete p = true :=
  (not_broken _ _ _ h ht).imp (isSome_false _).1 id

theorem appt_none_or_complete (p : Page) (t : Bool)
    (h : (t && p.apptModal.isSome && !apptModalComplete p) = false) (ht : t = true) :
    p.apptModal = none ∨ apptModalComplete p = true :=
  (not_broken _ _ _ h ht).imp (isSome_false _).1 id

theorem dispatch_completes (p : Page) (e : Event) (h : opensBrokenModal e p = false) :
    ∃ q effs, dispatch e p = .ok (q, effs) := by
  unfold opensBrokenModal at h
  cases e with
  | searchInput => simp only [dispatch]; split <;> [split; skip] <;> exact ⟨_, _, rfl⟩
  | openAddPatient =>
    simp only [dispatch]
    split
    · rename_i hb
      obtain ⟨q, hq⟩ := openPatientModal_ok (js "add") PatientData.empty p
        (patient_none_or_complete p _ h (by simp [openTrigger, hb]))
      rw [hq]; exact ⟨_, _, rfl⟩
    · exact ⟨_, _, rfl⟩
  | sidebarAddPatient =>
    simp only [dispatch]
    split
    · rename_i hb
      obtain ⟨q, hq⟩ := openPatientModal_ok (js "add") PatientData.empty p
        (patient_none_or_complete p _ h (by simp [openTrigger, hb]))
      rw [hq]; exact ⟨_, _, rfl⟩
    · exact ⟨_, _, rfl⟩
  | openAddAppt =>
    simp only [dispatch]
    split
    · rename_i hb
      obtain ⟨q, hq⟩ := openApptModal_ok (js "add") ApptData.empty p
        (appt_none_or_complete p _ h (by simp [openTrigger, hb]))
      rw [hq]; exact ⟨_, _, rfl⟩
    · exact ⟨_, _, rfl⟩
  | sidebarAddAppt =>
    simp only [dispatch]
    split
    · rename_i hb
      obtain ⟨q, hq⟩ := openApptModal_ok (js "add") ApptData.empty p
        (appt_none_or_complete p _ h (by simp [openTrigger, hb]))
      rw [hq]; exact ⟨_, _, rfl⟩
    · exact ⟨_, _, rfl⟩
  | patientEdit i =>
    simp only [dispatch]
    split
    · rename_i btn hb
      obtain ⟨q, hq⟩ := openPatientModal_ok (js "edit")
        ⟨some (orDefault btn.dataId (js "")), some (orDefault btn.dataName (js "")),
          some (orDefault btn.dataPhone (js "")), some (orDefault btn.dataEmail (js ""))⟩ p
        (patient_none_or_complete p _ h (by simp [openTrigger, hb]))
      simp only [onPatientEditClick, hq]; exact ⟨_, _, rfl⟩
    · exact ⟨_, _, rfl⟩
  | apptEdit i =>
    simp only [dispatch]
    split
    · rename_i btn hb
      cases hr : btn.row with
      | none => simp only [onApptEditClick, hr]; exact ⟨_, _, rfl⟩
      | some row =>
        obtain ⟨q, hq⟩ := openApptModal_ok (js "edit")
          ⟨some (orDefault row.dataAppointmentId (js "")),
            some (orDefault row.dataPatientId (js "")), some (orDefault row.dataDate (js "")),
            some (orDefault row.dataTime (js "")),
            some (orDefault row.dataStatusLabel (js "Booked"))⟩ p
          (appt_none_or_complete p _ h (by simp [openTrigger, hb, hr]))
        simp only [onApptEditClick, hr, hq]; exact ⟨_, _, rfl⟩
    · exact ⟨_, _, rfl⟩
  | patientModalClose => simp only [dispatch]; split <;> exact ⟨_, _, rfl⟩
  | patientModalCancel => simp only [dispatch]; split <;> exact ⟨_, _, rfl⟩
  | patientBackdrop => simp only [dispatch]; split <;> [split; skip] <;> exact ⟨_, _, rfl⟩
  | patientDelete i answer => simp only [dispatch]; split <;> exact ⟨_, _, rfl⟩
  | apptModalClose => simp only [dispatch]; split <;> exact ⟨_, _, rfl⟩
  | apptModalCancel => simp only [dispatch]; split <;> exact ⟨_, _, rfl⟩
  | apptBackdrop => simp only [dispatch]; split <;> [split; skip] <;> exact ⟨_, _, rfl⟩
  | apptDelete i answer => simp only [dispatch]; split <;> exact ⟨_, _, rfl⟩

theorem dispatch_throws (p : Page) (e : Event) (h : opensBrokenModal e p = true) :
    ∃ t, dispatch e p = .error t := by
  simp only [opensBrokenModal, Bool.and_eq_true, Bool.not_eq_true'] at h
  obtain ⟨⟨ht, hf⟩, hc⟩ := h
  cases e with
  | openAddPatient =>
    obtain ⟨t, h1⟩ := openPatientModal_throws (js "add") PatientData.empty p hf hc
    simp only [dispatch, if_some_isSome _ ht, if_true, h1]; exact ⟨t, rfl⟩
  | sidebarAddPatient =>
    obtain ⟨t, h1⟩ := openPatientModal_throws (js "add") PatientData.empty p hf hc
    simp only [dispatch, if_some_isSome _ ht, if_true, h1]; exact ⟨t, rfl⟩
  | openAddAppt =>
    obtain ⟨t, h1⟩ := openApptModal_add_throws ApptData.empty p hf hc
    simp only [dispatch, if_some_isSome _ ht, if_true, h1]; exact ⟨t, rfl⟩
  | sidebarAddAppt =>
    obtain ⟨t, h1⟩ := openApptModal_add_throws ApptData.empty p hf hc
    simp only [dispatch, if_some_isSome _ ht, if_true, h1]; exact ⟨t, rfl⟩
  | patientEdit i =>
    simp only [openTrigger] at ht
    cases hb : p.patientEditButtons[i]? with
    | none => simp [hb] at ht
    | some btn =>
      obtain ⟨t, h1⟩ := openPatientModal_throws (js "edit")
        ⟨some (orDefault btn.dataId (js "")), some (orDefault btn.dataName (js "")),
          some (orDefault btn.dataPhone (js "")), some (orDefault btn.dataEmail (js ""))⟩ p hf hc
      simp only [dispatch, hb, onPatientEditClick, h1]; exact ⟨t, rfl⟩
  | apptEdit i =>
    simp only [openTrigger] at ht
    cases hb : p.apptEditButtons[i]? with
    | none => simp [hb] at ht
    | some btn =>
      cases hr : btn.row with
      | none => simp [hb, hr] at ht
      | some row =>
        obtain ⟨t, h1⟩ := openApptModal_edit_throws
          ⟨some (orDefault row.dataAppointmentId (js "")),
            some (orDefault row.dataPatientId (js "")), some (orDefault row.dataDate (js "")),
            some (orDefault row.dataTime (js "")),
            some (orDefault row.dataStatusLabel (js "Booked"))⟩ _ p rfl
          (truthy_orDefault_booked row.dataStatusLabel) hf hc
        simp only [dispatch, hb, onApptEditClick, hr, h1]; exact ⟨t, rfl⟩
  | searchInput => simp [openTrigger] at ht
  | patientModalClose => simp [openTrigger] at ht
  | patientModalCancel => simp [openTrigger] at ht
  | patientBackdrop => simp [openTrigger] at ht
  | patientDelete i answer => simp [openTrigger] at ht
  | apptModalClose => simp [openTrigger] at ht
  | apptModalCancel => simp [openTrigger] at ht
  | apptBackdrop => simp [openTrigger] at ht
  | apptDelete i answer => simp [openTrigger] at ht

/-- C6, amended: on every page an event completes without throwing unless it
is an open click (add or edit) that finds its trigger and the container of
its modal but not the title or one of the fields of that modal, and then it
throws; and an event whose listener misses the element it listens to, the
search rows, the modal container, the enclosing form or the enclosing row
leaves the page as it was, shows no dialog and submits nothing. -/
theorem guarded_operations_complete (p : Page) (e : Event) :
    ((∃ q effs, dispatch e p = .ok (q, effs)) ↔ opensBrokenModal e p = false) ∧
    (requiredPresent e p = false →
      dispatch e p = .ok (p, []) ∨ dispatch e p = .ok (p, [.preventDefault])) := by
  refine ⟨⟨fun h => ?_, dispatch_completes p e⟩, dispatch_noop p e⟩
  cases hb : opensBrokenModal e p
  · rfl
  · obtain ⟨q, effs, hq⟩ := h
    obtain ⟨t, ht⟩ := dispatch_throws p e hb
    rw [hq] at ht
    cases ht

/-- The amended C6 on the sample dashboard without the patient modal, its
buttons left in place: a click on the cancel button and a click on the
add-patient button complete and change nothing. -/
theorem guarded_operations_complete_witness :
    (dispatch .patientModalCancel modalLessPage = .ok (modalLessPage, []) ∨
      dispatch .patientModalCancel modalLessPage = .ok (modalLessPage, [.preventDefault])) ∧
    (dispatch .openAddPatient modalLessPage = .ok (modalLessPage, []) ∨
      dispatch .openAddPatient modalLessPage = .ok (modalLessPage, [.preventDefault])) :=
  ⟨(guarded_operations_complete modalLessPage .patientModalCancel).2 (by decide),
    (guarded_operations_complete modalLessPage .openAddPatient).2 (by decide)⟩

/-- C7: a click on an open trigger that is there (add-patient button, sidebar
add-patient, a patient edit button, add-appointment button, sidebar
add-appointment, an appointment edit button inside a row), on a page where
the modal it opens is whole, leaves in the fields of that modal values fixed
by the trigger and the data attributes of its button or row: on two such
pages that agree on these, whatever their fields hold, the fields after the
click are equal. After an appointment edit click the status field equals the
status-label of the row, or "Booked" when that attribute is missing or
empty. -/
theorem open_overwrites_fields (p q : Page) (e : Event)
    (hp : openedModalComplete e p = true) (hq : openedModalComplete e q = true)
    (ht : (openTrigger e p).isSome = true) (hpq : openTrigger e p = openTrigger e q) :
    ∃ p' q', dispatch e p = .ok (p', []) ∧ dispatch e q = .ok (q', []) ∧
      openedFields e p' = openedFields e q' ∧
      ∀ i btn row, e = .apptEdit i → p.apptEditButtons[i]? = some btn → btn.row = some row →
        (∀ S, row.dataStatusLabel = some S → S ≠ js "" → p'.apptFieldStatus = some S) ∧
        (row.dataStatusLabel = none ∨ row.dataStatusLabel = some (js "") →
          p'.apptFieldStatus = some (js "Booked")) := by
  have ht' := ht
  rw [hpq] at ht'
  cases e with
  | openAddPatient =>
    exact ⟨_, _, dispatch_openAddPatient p hp (if_some_isSome _ ht), dispatch_openAddPatient q hq (if_some_isSome _ ht'),
      rfl, fun i btn row he => nomatch he⟩
  | sidebarAddPatient =>
    exact ⟨_, _, dispatch_sidebarAddPatient p hp (if_some_isSome _ ht), dispatch_sidebarAddPatient q hq (if_some_isSome _ ht'),
      rfl, fun i btn row he => nomatch he⟩
  | openAddAppt =>
    exact ⟨_, _, dispatch_openAddAppt p hp (if_some_isSome _ ht), dispatch_openAddAppt q hq (if_some_isSome _ ht'),
      rfl, fun i btn row he => nomatch he⟩
  | sidebarAddAppt =>
    exact ⟨_, _, dispatch_sidebarAddAppt p hp (if_some_isSome _ ht), dispatch_sidebarAddAppt q hq (if_some_isSome _ ht'),
      rfl, fun i btn row he => nomatch he⟩
  | patientEdit i =>
    simp only [openTrigger] at ht ht' hpq
    cases h1 : p.patientEditButtons[i]? with
    | none => simp [h1] at ht
    | some b1 =>
      cases h2 : q.patientEditButtons[i]? with
      | none => simp [h2] at ht'
      | some b2 =>
        simp only [h1, h2, Option.map_some', Option.some.injEq, List.cons.injEq, and_true] at hpq
        obtain ⟨e1, e2, e3, e4⟩ := hpq
        refine ⟨_, _, dispatch_patientEdit p i b1 hp h1, dispatch_patientEdit q i b2 hq h2, ?_, ?_⟩
        · simp only [openedFields, patientFields, e1, e2, e3, e4]
        · intro i btn row he; cases he
  | apptEdit i =>
    simp only [openTrigger] at ht ht' hpq
    cases h1 : p.apptEditButtons[i]? with
    | none => simp [h1] at ht
    | some b1 =>
      cases h2 : q.apptEditButtons[i]? with
      | none => simp [h2] at ht'
      | some b2 =>
        cases r1 : b1.row with
        | none => simp [h1, r1] at ht
        | some row1 =>
          cases r2 : b2.row with
          | none => simp [h2, r2] at ht'
          | some row2 =>
            simp only [h1, h2, r1, r2, Option.some_bind, Option.map_some', Option.some.injEq,
              List.cons.injEq, and_true] at hpq
            obtain ⟨e1, e2, e3, e4, e5⟩ := hpq
            refine ⟨_, _, dispatch_apptEdit p i b1 row1 hp h1 r1,
              dispatch_apptEdit q i b2 row2 hq h2 r2, ?_, ?_⟩
            · simp only [openedFields, apptFields, e1, e2, e3, e4, e5]
            · intro j btn row he hbtn hrow
              cases he
              rw [h1] at hbtn
              cases hbtn
              rw [r1] at hrow
              cases hrow
              constructor
              · intro S hS hne
                have : truthy S = true := (truthy_iff S).2 hne
                simp [hS, orDefault, this]
              · intro h
                rcases h with h | h
                · simp [h, orDefault]
                · simp [h, orDefault, js_empty, truthy]
  | searchInput => simp [openTrigger] at ht
  | patientModalClose => simp [openTrigger] at ht
  | patientModalCancel => simp [openTrigger] at ht
  | patientBackdrop => simp [openTrigger] at ht
  | patientDelete i answer => simp [openTrigger] at ht
  | apptModalClose => simp [openTrigger] at ht
  | apptModalCancel => simp [openTrigger] at ht
  | apptBackdrop => simp [openTrigger] at ht
  | apptDelete i answer => simp [openTrigger] at ht

/-- C7 on the sample dashboard and the same dashboard with other values in
every field: after a click on the first appointment edit button both hold the
attributes of the row, the status "Completed" included. -/
theorem open_overwrites_fields_witness :
    ∃ p' q', dispatch (.apptEdit 0) samplePage = .ok (p', []) ∧
      dispatch (.apptEdit 0) otherFieldsPage = .ok (q', []) ∧
      apptFields p' = apptFields q' ∧ p'.apptFieldStatus = some (js "Completed") := by
  obtain ⟨p', q', h1, h2, h3, h4⟩ := open_overwrites_fields samplePage otherFieldsPage
    (.apptEdit 0) (by decide) (by decide) (by decide) (by decide)
  exact ⟨p', q', h1, h2, h3, (h4 0 _ _ rfl rfl rfl).1 (js "Completed") rfl (by decide)⟩

/-- C8: on a page whose appointment modal is whole, a click on the edit button
of a row whose status-label is a non-empty string `S` sets the status field to
`S`; opening the appointment modal in add mode afterwards, and from any other
prior state `p0`, sets the status field to "Booked" and the id, patient, date
and time fields to the empty string. -/
theorem status_label_then_booked (p p0 : Page) (i : Nat) (btn : ApptEditBtn) (row : ApptRow)
    (S : Str) (hc : apptModalComplete p = true) (hb : p.apptEditButtons[i]? = some btn)
    (hr : btn.row = some row) (hS : row.dataStatusLabel = some S) (hne : S ≠ js "")
    (hc0 : apptModalComplete p0 = true) :
    (∃ q, dispatch (.apptEdit i) p = .ok (q, []) ∧ q.apptFieldStatus = some S ∧
      ∃ r, openApptModal (js "add") ApptData.empty q = .ok r ∧
        apptFields r =
          [some (js ""), some (js ""), some (js ""), some (js ""), some (js "Booked")]) ∧
    (∃ r, openApptModal (js "add") ApptData.empty p0 = .ok r ∧
      apptFields r =
        [some (js ""), some (js ""), some (js ""), some (js ""), some (js "Booked")]) := by
  have ht : truthy S = true := (truthy_iff S).2 hne
  refine ⟨⟨_, dispatch_apptEdit p i btn row hc hb hr, ?_, _,
    openApptModal_add _ add_ne_edit _ _ (complete_after_appt p _ _ _ _ _ _ _ hc), rfl⟩,
    ⟨_, openApptModal_add _ add_ne_edit _ p0 hc0, rfl⟩⟩
  simp [hS, orDefault, ht]

/-- C8 at the scenario of the specification: the row whose status-label is
"Completed" gives "Completed" on an edit click, and the add-appointment button
gives "Booked" afterwards. -/
theorem status_label_then_booked_witness :
    ∃ q, dispatch (.apptEdit 0) samplePage = .ok (q, []) ∧
      q.apptFieldStatus = some (js "Completed") ∧
      ∃ r, dispatch .openAddAppt q = .ok (r, []) ∧
        apptFields r =
          [some (js ""), some (js ""), some (js ""), some (js ""), some (js "Booked")] := by
  obtain ⟨q, h1, h2, r, h3, h4⟩ := (status_label_then_booked samplePage samplePage 0 _ _
    (js "Completed") (by decide) rfl rfl rfl (by decide) (by decide)).1
  have hq : q.openAddApptBtn = true := by
    have h1' : dispatch (.apptEdit 0) samplePage = .ok (_, []) :=
      dispatch_apptEdit samplePage 0 _ _ (by decide) rfl rfl
    rw [h1] at h1'
    cases h1'
    rfl
  refine ⟨q, h1, h2, r, ?_, h4⟩
  simp only [dispatch, hq, if_true, h3]
  rfl

end Dashboard
